import Mathlib

/-!
Verification of the subscription lifecycle and billing-synchronization
subsystem (`SubscriptionsService`, src/unnamed/part_013) of the
r_meillor_backend repository.

The service is embedded shallowly:

* the `subscriptions` table is a list of `Subscription` rows inside a
  state `St` that also carries a trace of database and billing-gateway
  effects (so that claims about "no gateway call" and "no write" are
  observable);
* the Stripe client, the plan catalog (`PlansService`, whose source is
  not part of the provided files and is therefore modelled from the
  read contract in the spec, section 4.3) and the customer mapping are
  a deterministic environment `Env`;
* JavaScript truthiness (`if (!x)`) on nullable strings is modelled by
  `falsyStr`; `Date(value * 1000).toISOString()` is abstracted by the
  injective rendering `isoOfEpoch`; the current time is passed in
  explicitly as the `now` argument.
-/

namespace RMeillor

/-- Canonical subscription statuses, from `subscription.entity.ts`. -/
inductive SubscriptionStatus
  | active
  | trialing
  | pastDue
  | paused
  | canceled
  | expired
  | incomplete
  | incompleteExpired
  | unpaid
deriving DecidableEq, Repr

/-- `ACTIVE_STATUSES` from `subscriptions.service.ts` (active-like set). -/
def ACTIVE_STATUSES : List SubscriptionStatus :=
  [.active, .trialing, .pastDue, .unpaid, .incomplete]

/-- A JavaScript string-valued object (`Record<string, string>`), as an
association list in key-insertion order.  A real JS object has no
duplicate keys; lemmas that need this take a `Nodup` hypothesis. -/
abbrev SMap := List (String × String)

/-- Value of key `k` in `m` (first binding wins, as in JS objects). -/
def lookupKey (m : SMap) (k : String) : Option String :=
  (m.find? (fun kv => kv.1 == k)).map (·.2)

/-- Does `m` bind key `k`. -/
def hasKey (m : SMap) (k : String) : Bool :=
  (m.find? (fun kv => kv.1 == k)).isSome

/-- JS object spread `{...a, ...b}`: keys of `a` in order with values
overridden by `b`, followed by the keys of `b` that are new. -/
def overlay (a b : SMap) : SMap :=
  a.map (fun kv => (kv.1, (lookupKey b kv.1).getD kv.2)) ++
    b.filter (fun kv => !(hasKey a kv.1))

/-- JS truthiness test for a nullable string: `null`/`undefined` and the
empty string are falsy. -/
def falsyStr : Option String → Bool
  | none => true
  | some s => s == ""

/-- Shape of the `metadata` jsonb column as manipulated by
`mergeMetadata`: a `custom` sub-object, a `stripe` sub-object, and the
remaining top-level keys (whose values the service never inspects,
abstracted as strings). -/
structure Meta where
  custom : Option SMap
  stripe : Option SMap
  rest : SMap
deriving DecidableEq, Repr

/-- The empty JS object as a `Meta`. -/
def Meta.empty : Meta := ⟨none, none, []⟩

/-- `SubscriptionsService.mergeMetadata`: start from the existing
metadata object (or `{}`), overlay non-empty custom metadata under the
`custom` sub-key, and set the `stripe` sub-key to the raw external
metadata verbatim when given (keeping the previous value, or `{}`,
otherwise). -/
def mergeMetadata (existing : Option Meta) (custom : SMap)
    (stripeMetadata : Option SMap) : Meta :=
  let m := existing.getD Meta.empty
  let m :=
    if custom.isEmpty then m
    else { m with custom := some (overlay (m.custom.getD []) custom) }
  { m with stripe := some (stripeMetadata.getD (m.stripe.getD [])) }

/-- A Stripe price object (the fields the service reads). -/
structure StripePrice where
  id : String
  nickname : Option String
deriving DecidableEq, Repr

/-- A Stripe subscription line item. -/
structure StripeItem where
  id : String
  price : Option StripePrice
deriving DecidableEq, Repr

/-- The `customer` field of a Stripe subscription: a string id, an
expanded object carrying an id, or null. -/
inductive CustomerField
  | cstr (s : String)
  | cobj (id : Option String)
  | cnull
deriving DecidableEq, Repr

/-- The `latest_invoice` field: an unexpanded invoice id, or an expanded
invoice object with hosted URL and PDF link. -/
inductive LatestInvoice
  | ref (id : String)
  | obj (hosted : Option String) (pdf : Option String)
deriving DecidableEq, Repr

/-- The `pause_collection` sub-object of a Stripe subscription; per the
Stripe API, `behavior` is a required string when the object is present. -/
structure PauseCollection where
  behavior : String
deriving DecidableEq, Repr

/-- An external subscription snapshot (`Stripe.Subscription`), restricted
to the fields the service reads.  Timestamps are unix seconds. -/
structure StripeSub where
  id : String
  customer : CustomerField
  status : String
  metadata : SMap
  items : List StripeItem
  latest_invoice : Option LatestInvoice
  pause_collection : Option PauseCollection
  start_date : Option Int
  current_period_start : Option Int
  current_period_end : Option Int
  ended_at : Option Int
  cancel_at : Option Int
  canceled_at : Option Int
deriving DecidableEq, Repr

/-- `SubscriptionsService.mapStripeStatus`, translated from the source
switch: a pause-collection setting forces `paused`; otherwise the raw
status string is mapped, defaulting to `expired`. -/
def mapStripeStatus (subscription : StripeSub) : SubscriptionStatus :=
  if subscription.pause_collection.isSome then .paused
  else
    match subscription.status with
    | "active" => .active
    | "trialing" => .trialing
    | "past_due" => .pastDue
    | "canceled" => .canceled
    | "incomplete" => .incomplete
    | "incomplete_expired" => .incompleteExpired
    | "unpaid" => .unpaid
    | _ => .expired

/-- Abstraction of `new Date(n * 1000).toISOString()`: an injective
rendering of the epoch value (the service only moves these strings
around, never inspects them). -/
def isoOfEpoch (n : Int) : String := "epoch:" ++ toString n

/-- `SubscriptionsService.convertTimestamp`: JS falsiness sends both
null/undefined and `0` to null. -/
def convertTimestamp (value : Option Int) : Option String :=
  match value with
  | none => none
  | some n => if n == 0 then none else some (isoOfEpoch n)

/-- A row of the `subscriptions` table (`subscription.entity.ts`). -/
structure Subscription where
  id : String
  created_at : String
  user_id : String
  plan : Option String
  plan_id : Option String
  stripe_subscription_id : Option String
  stripe_customer_id : Option String
  status : SubscriptionStatus
  started_at : Option String
  current_period_start : Option String
  current_period_end : Option String
  ended_at : Option String
  cancel_at : Option String
  canceled_at : Option String
  stripe_invoice_url : Option String
  pause_reason : Option String
  cancel_reason : Option String
  metadata : Meta
  last_event_at : Option String
deriving DecidableEq, Repr

/-- Observable side effects: datastore accesses by table name and
billing-gateway calls.  `gwDeleteSubscription` exists in the gateway API
but is never emitted by the service (claim C7). -/
inductive Effect
  | dbSelect (table : String)
  | dbInsert (table : String)
  | dbUpdate (table : String)
  | dbDelete (table : String)
  | gwCreateSubscription
  | gwRetrieveSubscription (id : String)
  | gwUpdateSubscription (id : String)
  | gwCancelSubscription (id : String)
  | gwDeleteSubscription (id : String)
  | gwRetrieveInvoice (id : String)
  | gwEnsureCustomer (userId : String)
deriving DecidableEq, Repr

/-- Mutable state: the `subscriptions` table, a counter generating fresh
row ids on insert, and the effect trace. -/
structure St where
  rows : List Subscription
  nextId : Nat
  trace : List Effect
deriving DecidableEq, Repr

/-- Append an effect to the trace. -/
def log (s : St) (e : Effect) : St := { s with trace := s.trace ++ [e] }

/-- A cached plan row (the fields the service reads). -/
structure Plan where
  id : String
  name : String
  stripe_price_id : String
deriving DecidableEq, Repr

/-- An invoice as returned by `stripe.invoices.retrieve`. -/
structure Invoice where
  hosted_invoice_url : Option String
  invoice_pdf : Option String
deriving DecidableEq, Repr

/-- Parameters of a `stripe.subscriptions.update` call, as built by
`update`, `pause` and `resume`: an optional line-item price swap
(item id, new price id), optional metadata, and an optional
pause-collection change (`some none` clears it). -/
structure StripeUpdateParams where
  items : Option (String × String) := none
  metadata : Option SMap := none
  pause_collection : Option (Option PauseCollection) := none
deriving DecidableEq, Repr

/-- Deterministic environment: collaborator lookups and the billing
gateway.  `plansById`/`plansByPrice` model `PlansService.findOne` /
`findByStripePrice`; the source of `PlansService` is not among the
provided files, so these follow the read contract of spec section 4.3
(`findOne` fails with NotFound when absent, `findByStripePrice` is
nullable).  `customerUser` is the `stripe_customers` mapping,
`ensureCustomer` is `CustomersService.ensureCustomer` reduced to the
Stripe customer id it yields, and the `stripe*` fields are the gateway
responses. -/
structure Env where
  plansById : String → Option Plan
  plansByPrice : String → Option Plan
  customerUser : String → Option String
  ensureCustomer : String → String
  invoices : String → Option Invoice
  stripeCreate : String → String → Option Nat → SMap → StripeSub
  stripeRetrieve : String → StripeSub
  stripeUpdate : String → StripeUpdateParams → StripeSub
  stripeCancel : String → StripeSub

/-- Extraction of the Stripe customer id from the `customer` field
(`typeof customer === 'string' ? customer : customer?.id ?? null`). -/
def stripeCustomerIdOf : CustomerField → Option String
  | .cstr s => some s
  | .cobj oid => oid
  | .cnull => none

/-- `SubscriptionsService.extractInvoiceUrl` (value part; the gateway
retrieve effect is logged at the call site in `syncFromStripe`).  A
failed invoice retrieval is caught and yields null. -/
def extractInvoiceUrl (env : Env) (sub : StripeSub) : Option String :=
  match sub.latest_invoice with
  | none => none
  | some (.ref invId) =>
      if invId == "" then none
      else
        match env.invoices invId with
        | some inv =>
            inv.hosted_invoice_url.orElse (fun _ => inv.invoice_pdf)
        | none => none
  | some (.obj hosted pdf) => hosted.orElse (fun _ => pdf)

/-- Owning-user resolution inside `syncFromStripe`, by strict priority:
the existing local record, the customer mapping, then the metadata hint
(each step guarded by JS truthiness as in the source). -/
def resolveUserId (env : Env) (existing : Option Subscription)
    (scid : String) (meta : SMap) : Option String :=
  let u0 := existing.map (·.user_id)
  let u1 := if falsyStr u0 then env.customerUser scid else u0
  let hint := lookupKey meta "user_id"
  if falsyStr u1 && !(falsyStr hint) then hint else u1

/-- The payload object literal built in `syncFromStripe` (the full set
of derivable columns that the upsert writes). -/
structure SyncPayload where
  user_id : String
  plan : Option String
  plan_id : Option String
  stripe_subscription_id : String
  stripe_customer_id : String
  status : SubscriptionStatus
  started_at : Option String
  current_period_start : Option String
  current_period_end : Option String
  ended_at : Option String
  cancel_at : Option String
  canceled_at : Option String
  stripe_invoice_url : Option String
  pause_reason : Option String
  metadata : Meta
  last_event_at : String
deriving DecidableEq, Repr

/-- Construction of the sync payload from the snapshot, the existing row
(if any), the resolved user and customer ids, including the
canceled-at backfill special case. -/
def buildPayload (env : Env) (now : String) (sub : StripeSub)
    (custom : SMap) (existing : Option Subscription)
    (userId scid : String) : SyncPayload :=
  let price := (sub.items.head?).bind (·.price)
  let plan : Option Plan :=
    match price with
    | some p => if p.id == "" then none else env.plansByPrice p.id
    | none => none
  let invoiceUrl := extractInvoiceUrl env sub
  let metadata :=
    mergeMetadata (existing.map (·.metadata)) custom (some sub.metadata)
  let base : SyncPayload :=
    { user_id := userId
      plan := (plan.map (·.name)).orElse
        (fun _ => (existing.bind (·.plan)).orElse
          (fun _ => price.bind (·.nickname)))
      plan_id := (plan.map (·.id)).orElse
        (fun _ => existing.bind (·.plan_id))
      stripe_subscription_id := sub.id
      stripe_customer_id := scid
      status := mapStripeStatus sub
      started_at := convertTimestamp sub.start_date
      current_period_start := convertTimestamp sub.current_period_start
      current_period_end := convertTimestamp sub.current_period_end
      ended_at := convertTimestamp sub.ended_at
      cancel_at := convertTimestamp sub.cancel_at
      canceled_at := convertTimestamp sub.canceled_at
      stripe_invoice_url := invoiceUrl.orElse
        (fun _ => existing.bind (·.stripe_invoice_url))
      pause_reason := sub.pause_collection.map (·.behavior)
      metadata := metadata
      last_event_at := now }
  if sub.status == "canceled" && base.canceled_at == none
      && !(convertTimestamp sub.ended_at == none) then
    { base with canceled_at := convertTimestamp sub.ended_at }
  else base

/-- A row as written by the update branch of the upsert: the payload
columns replace the corresponding columns of `r`; the row id, creation
time and the cancel_reason column (absent from the payload) survive. -/
def applyPayload (r : Subscription) (p : SyncPayload) : Subscription :=
  { r with
    user_id := p.user_id
    plan := p.plan
    plan_id := p.plan_id
    stripe_subscription_id := some p.stripe_subscription_id
    stripe_customer_id := some p.stripe_customer_id
    status := p.status
    started_at := p.started_at
    current_period_start := p.current_period_start
    current_period_end := p.current_period_end
    ended_at := p.ended_at
    cancel_at := p.cancel_at
    canceled_at := p.canceled_at
    stripe_invoice_url := p.stripe_invoice_url
    pause_reason := p.pause_reason
    metadata := p.metadata
    last_event_at := some p.last_event_at }

/-- A row as created by the insert branch of the upsert; `id` and
`created_at` are datastore-generated, `cancel_reason` defaults to null. -/
def SyncPayload.toRow (p : SyncPayload) (id created : String) :
    Subscription :=
  { id := id
    created_at := created
    user_id := p.user_id
    plan := p.plan
    plan_id := p.plan_id
    stripe_subscription_id := some p.stripe_subscription_id
    stripe_customer_id := some p.stripe_customer_id
    status := p.status
    started_at := p.started_at
    current_period_start := p.current_period_start
    current_period_end := p.current_period_end
    ended_at := p.ended_at
    cancel_at := p.cancel_at
    canceled_at := p.canceled_at
    stripe_invoice_url := p.stripe_invoice_url
    pause_reason := p.pause_reason
    cancel_reason := none
    metadata := p.metadata
    last_event_at := some p.last_event_at }

/-- The datastore-generated id for the next inserted row. -/
def freshId (s : St) : String := "row-" ++ toString s.nextId

/-- `SubscriptionsService.findByStripeSubscriptionId` (value part). -/
def findByStripeSubscriptionId (rows : List Subscription)
    (stripeId : String) : Option Subscription :=
  rows.find? (fun r => r.stripe_subscription_id == some stripeId)

/-- `SubscriptionsService.syncFromStripe`: locate the existing row by
external id, abort on a falsy customer id, resolve the owning user
(aborting silently when none resolves), build the payload and upsert.
Plan-catalog lookups are environment reads and are not traced;
datastore reads/writes on `subscriptions` and `stripe_customers` and
the invoice retrieval are traced. -/
def syncFromStripe (env : Env) (now : String) (sub : StripeSub)
    (custom : SMap) (s : St) : St :=
  let s1 := log s (.dbSelect "subscriptions")
  let existing := findByStripeSubscriptionId s1.rows sub.id
  let scidOpt := stripeCustomerIdOf sub.customer
  if falsyStr scidOpt then s1
  else
    let scid := scidOpt.getD ""
    let s2 :=
      if falsyStr (existing.map (·.user_id)) then
        log s1 (.dbSelect "stripe_customers")
      else s1
    let userIdOpt := resolveUserId env existing scid sub.metadata
    if falsyStr userIdOpt then s2
    else
      let userId := userIdOpt.getD ""
      let s3 :=
        match sub.latest_invoice with
        | some (.ref invId) =>
            if invId == "" then s2 else log s2 (.gwRetrieveInvoice invId)
        | _ => s2
      let payload := buildPayload env now sub custom existing userId scid
      match existing with
      | some e =>
          if e.id == "" then
            let s4 := log s3 (.dbInsert "subscriptions")
            { s4 with
              rows := s4.rows ++ [payload.toRow (freshId s4) now]
              nextId := s4.nextId + 1 }
          else
            let s4 := log s3 (.dbUpdate "subscriptions")
            { s4 with
              rows := s4.rows.map
                (fun r => if r.id == e.id then applyPayload r payload else r) }
      | none =>
          let s4 := log s3 (.dbInsert "subscriptions")
          { s4 with
            rows := s4.rows ++ [payload.toRow (freshId s4) now]
            nextId := s4.nextId + 1 }

/-- Error taxonomy as thrown by the service: `badRequest` covers both
validation and business-rule violations (distinguished by message, as in
the source), `forbidden` authorization, `notFound` missing rows and
`internal` unexpected states. -/
inductive Err
  | badRequest (msg : String)
  | forbidden (msg : String)
  | notFound (msg : String)
  | internal (msg : String)
deriving DecidableEq, Repr

/-- Hex-digit test for the UUID check. -/
def isHexDigit (c : Char) : Bool :=
  c.isDigit || ('a' ≤ c && c ≤ 'f') || ('A' ≤ c && c ≤ 'F')

/-- Admissible character at position `i` of a canonical UUID, following
the case-insensitive regex in `isValidUUID` (hyphens at 8, 13, 18, 23;
version digit 1-5 at 14; variant 8, 9, a or b at 19). -/
def uuidCharOk (i : Nat) (c : Char) : Bool :=
  if i == 8 || i == 13 || i == 18 || i == 23 then c == '-'
  else if i == 14 then '1' ≤ c && c ≤ '5'
  else if i == 19 then
    c == '8' || c == '9' || c == 'a' || c == 'b' || c == 'A' || c == 'B'
  else isHexDigit c

/-- `SubscriptionsService.isValidUUID`. -/
def isValidUUID (u : String) : Bool :=
  let cs := u.toList
  cs.length == 36 &&
    (List.range 36).all fun i =>
      match cs.get? i with
      | some c => uuidCharOk i c
      | none => false

/-- `SubscriptionsService.getById`: validation, then a traced lookup. -/
def getById (id : String) (s : St) : Except Err Subscription × St :=
  if !(isValidUUID id) then
    (.error (.badRequest "Invalid subscription identifier"), s)
  else
    let s1 := log s (.dbSelect "subscriptions")
    match s1.rows.find? (fun r => r.id == id) with
    | none =>
        (.error (.notFound ("Subscription with id \"" ++ id ++ "\" not found")),
          s1)
    | some r => (.ok r, s1)

/-- `SubscriptionsService.ensureAccess`. -/
def ensureAccess (sub : Subscription) (requesterId : String)
    (isAdmin : Bool) : Except Err Unit :=
  if isAdmin then .ok ()
  else if sub.user_id != requesterId then
    .error (.forbidden "You are not allowed to access this subscription")
  else .ok ()

/-- Truthiness of the row's external subscription id, the branch switch
between externally-backed and local-only paths. -/
def stripeBacked (sub : Subscription) : Bool :=
  !(falsyStr sub.stripe_subscription_id)

/-- The sparse `updates` object the operations build for the local
patch path.  An outer `none` means the key is absent; for nullable
columns the inner option is the written value.  The object never
carries `user_id` (`update` even deletes the key defensively), and no
operation ever sets the period columns, which are kept here so that
this frame fact is statable (claim C5).  `last_event_at` is present in
every updates object. -/
structure LocalPatch where
  last_event_at : String
  status : Option SubscriptionStatus := none
  plan : Option String := none
  plan_id : Option String := none
  started_at : Option String := none
  current_period_start : Option (Option String) := none
  current_period_end : Option (Option String) := none
  ended_at : Option (Option String) := none
  pause_reason : Option (Option String) := none
  cancel_reason : Option (Option String) := none
  stripe_invoice_url : Option (Option String) := none
  metadata : Option Meta := none
deriving DecidableEq, Repr

/-- `Object.keys(updates).length > 1`: some key besides `last_event_at`. -/
def LocalPatch.hasOtherKeys (p : LocalPatch) : Bool :=
  p.status.isSome || p.plan.isSome || p.plan_id.isSome ||
    p.started_at.isSome || p.current_period_start.isSome ||
    p.current_period_end.isSome || p.ended_at.isSome ||
    p.pause_reason.isSome || p.cancel_reason.isSome ||
    p.stripe_invoice_url.isSome || p.metadata.isSome

/-- Application of a sparse updates object to a row. -/
def applyLocalPatch (r : Subscription) (p : LocalPatch) : Subscription :=
  { r with
    status := p.status.getD r.status
    plan := (p.plan.map some).getD r.plan
    plan_id := (p.plan_id.map some).getD r.plan_id
    started_at := (p.started_at.map some).getD r.started_at
    current_period_start := p.current_period_start.getD r.current_period_start
    current_period_end := p.current_period_end.getD r.current_period_end
    ended_at := p.ended_at.getD r.ended_at
    pause_reason := p.pause_reason.getD r.pause_reason
    cancel_reason := p.cancel_reason.getD r.cancel_reason
    stripe_invoice_url := p.stripe_invoice_url.getD r.stripe_invoice_url
    metadata := p.metadata.getD r.metadata
    last_event_at := some p.last_event_at }

/-- Traced `update ... eq('id', id)` on the subscriptions table. -/
def updateRowsById (s : St) (id : String) (p : LocalPatch) : St :=
  let s1 := log s (.dbUpdate "subscriptions")
  { s1 with
    rows := s1.rows.map fun r =>
      if r.id == id then applyLocalPatch r p else r }

/-- `PauseSubscriptionDto`. -/
structure PauseDto where
  reason : Option String := none
deriving DecidableEq, Repr

/-- `ResumeSubscriptionDto`. -/
structure ResumeDto where
  plan : Option String := none
  stripe_invoice_url : Option String := none
deriving DecidableEq, Repr

/-- `CancelSubscriptionDto`. -/
structure CancelDto where
  reason : Option String := none
  stripe_invoice_url : Option String := none
deriving DecidableEq, Repr

/-- `UpdateSubscriptionDto` (the fields `update` reads).  Outer options
distinguish an absent key from a supplied value, matching the
`!== undefined` checks in the source. -/
structure UpdateDto where
  user_id : Option String := none
  plan : Option String := none
  plan_id : Option String := none
  stripe_price_id : Option String := none
  status : Option SubscriptionStatus := none
  started_at : Option String := none
  ended_at : Option (Option String) := none
  pause_reason : Option (Option String) := none
  cancel_reason : Option (Option String) := none
  stripe_invoice_url : Option (Option String) := none
  metadata : Option SMap := none
deriving DecidableEq, Repr

/-- `CreateSubscriptionDto` (the fields `create` reads). -/
structure CreateDto where
  user_id : Option String := none
  plan : Option String := none
  plan_id : Option String := none
  stripe_price_id : Option String := none
  trial_period_days : Option Nat := none
  metadata : Option SMap := none
deriving DecidableEq, Repr

/-- The authenticated caller (`User` of the identity provider). -/
structure Requester where
  id : String
  email : Option String := none
  full_name : Option String := none
deriving DecidableEq, Repr

/-- Result of `SubscriptionsService.resolvePrice`. -/
structure PriceResolution where
  priceId : Option String
  planId : Option String
  planName : Option String
deriving DecidableEq, Repr

/-- `SubscriptionsService.resolvePrice`.  `plansById` none models
`PlansService.findOne` raising NotFound (spec section 4.1 step 2; the
PlansService source is not among the provided files). -/
def resolvePrice (env : Env) (plan_id stripe_price_id plan : Option String) :
    Except Err PriceResolution :=
  if !(falsyStr plan_id) then
    match env.plansById (plan_id.getD "") with
    | none => .error (.notFound "Plan not found")
    | some p => .ok ⟨some p.stripe_price_id, some p.id, some p.name⟩
  else if !(falsyStr stripe_price_id) then
    let p := env.plansByPrice (stripe_price_id.getD "")
    .ok ⟨stripe_price_id, p.map (·.id),
      (p.map (·.name)).orElse (fun _ => plan)⟩
  else .ok ⟨none, none, plan⟩

/-- The local updates object built by `pause` (status and ended_at only
on the local-only branch). -/
def pauseLocalPatch (sub : Subscription) (dto : PauseDto) (now : String) :
    LocalPatch :=
  { last_event_at := now
    pause_reason := some dto.reason
    status := if stripeBacked sub then none else some .paused
    ended_at := if stripeBacked sub then none else some (some now) }

/-- The local updates object built by `resume`. -/
def resumeLocalPatch (sub : Subscription) (dto : ResumeDto) (now : String) :
    LocalPatch :=
  { last_event_at := now
    pause_reason := some none
    status := if stripeBacked sub then none else some .active
    ended_at := if stripeBacked sub then none else some none
    started_at :=
      if !(stripeBacked sub) && falsyStr sub.started_at then some now
      else none
    plan :=
      if !(falsyStr dto.plan) && !(stripeBacked sub) then dto.plan else none
    stripe_invoice_url :=
      if falsyStr dto.stripe_invoice_url then none
      else some dto.stripe_invoice_url }

/-- The local updates object built by `cancel` (the invoice URL key is
always written, falling back to the current value). -/
def cancelLocalPatch (sub : Subscription) (dto : CancelDto) (now : String) :
    LocalPatch :=
  { last_event_at := now
    cancel_reason := some dto.reason
    stripe_invoice_url :=
      some (dto.stripe_invoice_url.orElse (fun _ => sub.stripe_invoice_url))
    status := if stripeBacked sub then none else some .canceled
    ended_at := if stripeBacked sub then none else some (some now) }

/-- The local updates object built by `update`: status, plan and plan_id
apply only to local-only rows; timestamp and free-text keys follow the
`!== undefined` checks; metadata merges locally only when the external
branch did not already merge it.  `user_id` is structurally absent
(mirroring `delete updates.user_id`). -/
def updateLocalPatch (sub : Subscription) (dto : UpdateDto)
    (metadataMerged : Bool) (now : String) : LocalPatch :=
  { last_event_at := now
    status := if stripeBacked sub then none else dto.status
    plan :=
      if !(stripeBacked sub) && !(falsyStr dto.plan) then dto.plan else none
    plan_id :=
      if !(stripeBacked sub) && !(falsyStr dto.plan_id) then dto.plan_id
      else none
    started_at := if falsyStr dto.started_at then none else dto.started_at
    ended_at := dto.ended_at
    pause_reason := dto.pause_reason
    cancel_reason := dto.cancel_reason
    stripe_invoice_url := dto.stripe_invoice_url
    metadata :=
      if metadataMerged then none
      else dto.metadata.map fun m => mergeMetadata (some sub.metadata) m none }

/-- `SubscriptionsService.pause`. -/
def pause (env : Env) (now : String) (id requesterId : String)
    (dto : PauseDto) (isAdmin : Bool) (s : St) :
    Except Err Subscription × St :=
  match getById id s with
  | (.error e, s1) => (.error e, s1)
  | (.ok sub, s1) =>
    match ensureAccess sub requesterId isAdmin with
    | .error e => (.error e, s1)
    | .ok _ =>
      if !(ACTIVE_STATUSES.contains sub.status) then
        (.error (.badRequest "Only active subscriptions can be paused"), s1)
      else
        let s2 :=
          match sub.stripe_subscription_id with
          | some sid =>
              if sid == "" then s1
              else
                let s2 := log s1 (.gwUpdateSubscription sid)
                let params : StripeUpdateParams :=
                  { pause_collection := some (some ⟨"mark_uncollectible"⟩)
                    metadata :=
                      if falsyStr dto.reason then none
                      else some [("pause_reason", dto.reason.getD "")] }
                let updated := env.stripeUpdate sid params
                let custom : SMap :=
                  match dto.reason with
                  | some r => [("pause_reason", r)]
                  | none => []
                syncFromStripe env now updated custom s2
          | none => s1
        let s3 := updateRowsById s2 id (pauseLocalPatch sub dto now)
        getById id s3

/-- `SubscriptionsService.resume`. -/
def resume (env : Env) (now : String) (id requesterId : String)
    (dto : ResumeDto) (isAdmin : Bool) (s : St) :
    Except Err Subscription × St :=
  match getById id s with
  | (.error e, s1) => (.error e, s1)
  | (.ok sub, s1) =>
    match ensureAccess sub requesterId isAdmin with
    | .error e => (.error e, s1)
    | .ok _ =>
      if !(sub.status == SubscriptionStatus.paused) then
        (.error (.badRequest "Only paused subscriptions can be resumed"), s1)
      else
        let s2 :=
          match sub.stripe_subscription_id with
          | some sid =>
              if sid == "" then s1
              else
                let s2 := log s1 (.gwUpdateSubscription sid)
                let updated :=
                  env.stripeUpdate sid { pause_collection := some none }
                syncFromStripe env now updated [] s2
          | none => s1
        let s3 := updateRowsById s2 id (resumeLocalPatch sub dto now)
        getById id s3

/-- `SubscriptionsService.cancel`. -/
def cancel (env : Env) (now : String) (id requesterId : String)
    (dto : CancelDto) (isAdmin : Bool) (s : St) :
    Except Err Subscription × St :=
  match getById id s with
  | (.error e, s1) => (.error e, s1)
  | (.ok sub, s1) =>
    match ensureAccess sub requesterId isAdmin with
    | .error e => (.error e, s1)
    | .ok _ =>
      if sub.status == SubscriptionStatus.canceled then
        (.error (.badRequest "Subscription is already canceled"), s1)
      else
        let s2 :=
          match sub.stripe_subscription_id with
          | some sid =>
              if sid == "" then s1
              else
                let s2 := log s1 (.gwCancelSubscription sid)
                let canceledStripe := env.stripeCancel sid
                let custom : SMap :=
                  match dto.reason with
                  | some r => [("cancel_reason", r)]
                  | none => []
                syncFromStripe env now canceledStripe custom s2
          | none => s1
        let s3 := updateRowsById s2 id (cancelLocalPatch sub dto now)
        getById id s3

/-- Continuation of `update` after the externally-backed branch: build
the local updates object, write it only when it has keys besides
`last_event_at`, and re-read the row. -/
def finishUpdate (now : String) (id : String) (sub : Subscription)
    (dto : UpdateDto) (metadataMerged : Bool) (s : St) :
    Except Err Subscription × St :=
  let patch := updateLocalPatch sub dto metadataMerged now
  let s1 := if patch.hasOtherKeys then updateRowsById s id patch else s
  getById id s1

/-- `SubscriptionsService.update`. -/
def update (env : Env) (now : String) (id requesterId : String)
    (dto : UpdateDto) (isAdmin : Bool) (s : St) :
    Except Err Subscription × St :=
  match getById id s with
  | (.error e, s1) => (.error e, s1)
  | (.ok sub, s1) =>
    match ensureAccess sub requesterId isAdmin with
    | .error e => (.error e, s1)
    | .ok _ =>
      match sub.stripe_subscription_id with
      | some sid =>
          if sid == "" then finishUpdate now id sub dto false s1
          else
            let s2 := log s1 (.gwRetrieveSubscription sid)
            let currentStripe := env.stripeRetrieve sid
            match resolvePrice env dto.plan_id dto.stripe_price_id dto.plan with
            | .error e => (.error e, s2)
            | .ok pr =>
              let firstItem := currentStripe.items.head?
              let itemsParam : Option (String × String) :=
                match pr.priceId, firstItem with
                | some pid, some it =>
                    if !(pid == "") && !(it.price.map (·.id) == some pid) then
                      some (it.id, pid)
                    else none
                | _, _ => none
              let metaParam : Option SMap :=
                match dto.metadata with
                | some m =>
                    if m.isEmpty then none
                    else some (overlay currentStripe.metadata m)
                | none => none
              let s3 :=
                if itemsParam.isSome || metaParam.isSome then
                  let s3 := log s2 (.gwUpdateSubscription sid)
                  let updatedStripe := env.stripeUpdate sid
                    { items := itemsParam, metadata := metaParam }
                  syncFromStripe env now updatedStripe (dto.metadata.getD []) s3
                else
                  syncFromStripe env now currentStripe (dto.metadata.getD []) s2
              finishUpdate now id sub dto true s3
      | none => finishUpdate now id sub dto false s1

/-- `SubscriptionsService.ensureUserCanStartNew`: reject when the user
already holds a row in the active-like-or-paused set. -/
def ensureUserCanStartNew (userId : String) (s : St) :
    Except Err Unit × St :=
  let s1 := log s (.dbSelect "subscriptions")
  if s1.rows.any (fun r =>
      r.user_id == userId &&
        (ACTIVE_STATUSES ++ [SubscriptionStatus.paused]).contains r.status)
  then
    (.error (.badRequest "An active subscription already exists for this user"),
      s1)
  else (.ok (), s1)

/-- `SubscriptionsService.create`. -/
def create (env : Env) (now : String) (requester : Requester)
    (dto : CreateDto) (isAdmin : Bool) (s : St) :
    Except Err Subscription × St :=
  let targetUserId := dto.user_id.getD requester.id
  if !(isValidUUID targetUserId) then
    (.error (.badRequest "Invalid user identifier"), s)
  else if !isAdmin && !(targetUserId == requester.id) then
    (.error (.forbidden
      "You are not allowed to create subscriptions for other users"), s)
  else
    match ensureUserCanStartNew targetUserId s with
    | (.error e, s1) => (.error e, s1)
    | (.ok _, s1) =>
      match resolvePrice env dto.plan_id dto.stripe_price_id dto.plan with
      | .error e => (.error e, s1)
      | .ok pr =>
        if falsyStr pr.priceId then
          (.error (.badRequest
            "A valid plan_id or stripe_price_id is required to create a subscription"),
            s1)
        else
          let s2 := log s1 (.gwEnsureCustomer targetUserId)
          let scid := env.ensureCustomer targetUserId
          let s3 := log s2 .gwCreateSubscription
          let baseMeta : SMap :=
            [("user_id", targetUserId)] ++
              (match pr.planId with
                | some p => [("plan_id", p)]
                | none => []) ++
              (match pr.planName.orElse (fun _ => dto.plan) with
                | some p => [("plan_name", p)]
                | none => [])
          let subMeta := overlay baseMeta (dto.metadata.getD [])
          let subscription :=
            env.stripeCreate scid (pr.priceId.getD "")
              dto.trial_period_days subMeta
          let s4 := syncFromStripe env now subscription (dto.metadata.getD []) s3
          let s5 := log s4 (.dbSelect "subscriptions")
          match findByStripeSubscriptionId s5.rows subscription.id with
          | none =>
              (.error (.internal
                "Failed to persist subscription after Stripe creation"), s5)
          | some created => (.ok created, s5)

/-- `SubscriptionsService.remove`: access check, the non-privileged
status gate, the internal cancel for externally-backed non-canceled
rows (reason: Deleted via API), then a hard delete of the local row
only.  No gateway delete call exists anywhere in the service. -/
def remove (env : Env) (now : String) (id requesterId : String)
    (isAdmin : Bool) (s : St) : Except Err Unit × St :=
  match getById id s with
  | (.error e, s1) => (.error e, s1)
  | (.ok sub, s1) =>
    match ensureAccess sub requesterId isAdmin with
    | .error e => (.error e, s1)
    | .ok _ =>
      if !isAdmin &&
          !([SubscriptionStatus.canceled,
              SubscriptionStatus.expired].contains sub.status) then
        (.error (.badRequest
          "Only canceled or expired subscriptions can be deleted"), s1)
      else
        let step : Except Err Subscription × St :=
          if stripeBacked sub &&
              !(sub.status == SubscriptionStatus.canceled) then
            cancel env now id requesterId
              { reason := some "Deleted via API" } isAdmin s1
          else (.ok sub, s1)
        match step with
        | (.error e, s2) => (.error e, s2)
        | (.ok _, s2) =>
            let s3 := log s2 (.dbDelete "subscriptions")
            (.ok (),
              { s3 with rows := s3.rows.filter fun r => !(r.id == id) })

/-- The `subscription` field of a checkout session. -/
inductive SessionSubscription
  | sstr (s : String)
  | sobj (id : Option String)
  | snull
deriving DecidableEq, Repr

/-- A `Stripe.Checkout.Session` (the fields the handler reads). -/
structure CheckoutSession where
  mode : String
  subscription : SessionSubscription
  metadata : SMap
deriving DecidableEq, Repr

/-- `SubscriptionsService.handleCheckoutSession`. -/
def handleCheckoutSession (env : Env) (now : String)
    (session : CheckoutSession) (s : St) : St :=
  if !(session.mode == "subscription") then s
  else
    let subscriptionId : Option String :=
      match session.subscription with
      | .sstr v => some v
      | .sobj oid => if falsyStr oid then none else oid
      | .snull => none
    if falsyStr subscriptionId then s
    else
      let sid := subscriptionId.getD ""
      let s1 := log s (.gwRetrieveSubscription sid)
      let subscription := env.stripeRetrieve sid
      let metadata := if session.metadata.isEmpty then [] else session.metadata
      syncFromStripe env now subscription metadata s1

/-- Rows holding a given external subscription id. -/
def rowsFor (stripeId : String) (rows : List Subscription) :
    List Subscription :=
  rows.filter fun r => r.stripe_subscription_id == some stripeId

/-- The derived columns of a row, as enumerated in claim C1: everything
the reconciliation payload writes except the last-sync timestamp. -/
def derivedFields (r : Subscription) :
    String × Option String × Option String × Option String ×
      Option String × SubscriptionStatus × Option String × Option String ×
      Option String × Option String × Option String × Option String ×
      Option String × Option String × Meta :=
  (r.user_id, r.plan, r.plan_id, r.stripe_subscription_id,
    r.stripe_customer_id, r.status, r.started_at, r.current_period_start,
    r.current_period_end, r.ended_at, r.cancel_at, r.canceled_at,
    r.stripe_invoice_url, r.pause_reason, r.metadata)

/-- The derived columns as carried by a sync payload (same tuple as
`derivedFields` on a row written from that payload). -/
def derivedOfPayload (p : SyncPayload) :
    String × Option String × Option String × Option String ×
      Option String × SubscriptionStatus × Option String × Option String ×
      Option String × Option String × Option String × Option String ×
      Option String × Option String × Meta :=
  (p.user_id, p.plan, p.plan_id, some p.stripe_subscription_id,
    some p.stripe_customer_id, p.status, p.started_at,
    p.current_period_start, p.current_period_end, p.ended_at, p.cancel_at,
    p.canceled_at, p.stripe_invoice_url, p.pause_reason, p.metadata)

/-- Is the effect a billing-gateway call. -/
def isGw : Effect → Bool
  | .gwCreateSubscription => true
  | .gwRetrieveSubscription _ => true
  | .gwUpdateSubscription _ => true
  | .gwCancelSubscription _ => true
  | .gwDeleteSubscription _ => true
  | .gwRetrieveInvoice _ => true
  | .gwEnsureCustomer _ => true
  | _ => false

/-- The gateway calls of a trace. -/
def gwCalls (s : St) : List Effect := s.trace.filter isGw

/-- Is the effect a datastore write. -/
def isDbWrite : Effect → Bool
  | .dbInsert _ => true
  | .dbUpdate _ => true
  | .dbDelete _ => true
  | _ => false

/-- The datastore writes of a trace. -/
def dbWrites (s : St) : List Effect := s.trace.filter isDbWrite

/-- Is the effect a gateway subscription-delete call. -/
def isGwDelete : Effect → Bool
  | .gwDeleteSubscription _ => true
  | _ => false

/-- The gateway subscription-delete calls of a trace. -/
def gwDeletes (s : St) : List Effect := s.trace.filter isGwDelete

/-- A fixed valid (version 4, variant 8) UUID used by concrete tests. -/
def idW : String := "11111111-1111-4111-8111-111111111111"

/-- A second fixed valid UUID, used as a user id in concrete tests. -/
def userW : String := "22222222-2222-4222-8222-222222222222"

/-- A concrete subscription row with a given status, local-only. -/
def rowW (st : SubscriptionStatus) : Subscription :=
  { id := idW
    created_at := "t0"
    user_id := userW
    plan := none
    plan_id := none
    stripe_subscription_id := none
    stripe_customer_id := none
    status := st
    started_at := none
    current_period_start := none
    current_period_end := none
    ended_at := none
    cancel_at := none
    canceled_at := none
    stripe_invoice_url := none
    pause_reason := none
    cancel_reason := none
    metadata := Meta.empty
    last_event_at := none }

/-- A one-row concrete state. -/
def stW (st : SubscriptionStatus) : St :=
  { rows := [rowW st], nextId := 0, trace := [] }

/-- The empty concrete state. -/
def st0 : St := { rows := [], nextId := 0, trace := [] }

/-- A concrete external snapshot with a plain string customer id. -/
def stripeSubW : StripeSub :=
  { id := "sub_1"
    customer := .cstr "cus_1"
    status := "active"
    metadata := []
    items := []
    latest_invoice := none
    pause_collection := none
    start_date := none
    current_period_start := none
    current_period_end := none
    ended_at := none
    cancel_at := none
    canceled_at := none }

/-- A concrete environment for tests: empty plan catalog, no customer
mappings, and a gateway that always answers with `stripeSubW`. -/
def envW : Env :=
  { plansById := fun _ => none
    plansByPrice := fun _ => none
    customerUser := fun _ => none
    ensureCustomer := fun u => "cus_" ++ u
    invoices := fun _ => none
    stripeCreate := fun _ _ _ _ => stripeSubW
    stripeRetrieve := fun _ => stripeSubW
    stripeUpdate := fun _ _ => stripeSubW
    stripeCancel := fun _ => stripeSubW }

/-- The concrete environment extended with a customer mapping, so that
reconciliation can attribute snapshots to a user. -/
def envC1 : Env := { envW with customerUser := fun _ => some userW }

/-- A snapshot with no customer identifier but with a user-id metadata
hint. -/
def subNoCustomer : StripeSub :=
  { stripeSubW with customer := .cnull, metadata := [("user_id", userW)] }

/-- A row already synced from the external subscription `sub_1`. -/
def rowSynced : Subscription :=
  { rowW .active with
    stripe_subscription_id := some "sub_1"
    stripe_customer_id := some "cus_1" }

/-- A one-row concrete state holding the synced row. -/
def st10 : St := { rows := [rowSynced], nextId := 0, trace := [] }

/-- Specification-side status table, written from the mapping table of
spec section 4.1 (step 4): the eight listed raw statuses map to their
namesakes and anything else maps to expired. -/
def specStatusTable (raw : String) : SubscriptionStatus :=
  match raw with
  | "active" => .active
  | "trialing" => .trialing
  | "past_due" => .pastDue
  | "canceled" => .canceled
  | "incomplete" => .incomplete
  | "incomplete_expired" => .incompleteExpired
  | "unpaid" => .unpaid
  | _ => .expired

/-- Specification-side canonical status: a pause-collection setting on
the external object always maps to paused, overriding the raw status;
otherwise the fixed table applies. -/
def specCanonicalStatus (sub : StripeSub) : SubscriptionStatus :=
  if sub.pause_collection.isSome then .paused
  else specStatusTable sub.status

/-- C2: the canonical status derived by reconciliation follows the fixed
mapping table (active, trialing, past_due, canceled, incomplete,
incomplete_expired and unpaid map to their namesakes, anything else to
expired), except that a pause-collection setting on the snapshot forces
paused regardless of the raw external status. -/
theorem mapStripeStatus_follows_spec_table (sub : StripeSub) :
    mapStripeStatus sub = specCanonicalStatus sub := by
  unfold mapStripeStatus specCanonicalStatus specStatusTable
  rfl

/-! Helper lemmas shared by the claim theorems. -/

lemma applyPayload_id (r : Subscription) (p : SyncPayload) :
    (applyPayload r p).id = r.id := rfl

lemma applyLocalPatch_id (r : Subscription) (p : LocalPatch) :
    (applyLocalPatch r p).id = r.id := rfl

lemma log_rows (s : St) (e : Effect) : (log s e).rows = s.rows := rfl

/-- Finding by row id commutes with an id-preserving map. -/
lemma find_id_map_pres (l : List Subscription) (i : String)
    (F : Subscription → Subscription) (hF : ∀ r, (F r).id = r.id) :
    (l.map F).find? (fun r => r.id == i) =
      (l.find? (fun r => r.id == i)).map F := by
  rw [List.find?_map]
  have heq : ((fun r : Subscription => r.id == i) ∘ F) =
      (fun r : Subscription => r.id == i) := by
    funext r
    simp [Function.comp, hF]
  rw [heq]

/-- The guarded per-row rewrite used by the upsert and the local patch
writes preserves row ids. -/
lemma guard_map_id_pres (x : String) (g : Subscription → Subscription)
    (hg : ∀ r, (g r).id = r.id) :
    ∀ r : Subscription,
      ((fun r => if r.id == x then g r else r) r).id = r.id := by
  intro r
  by_cases h : r.id == x
  · simp [h, hg]
  · simp [h]

@[simp] lemma falsyStr_none : falsyStr none = true := rfl

@[simp] lemma falsyStr_some (s : String) : falsyStr (some s) = (s == "") := rfl

lemma isSome_or_left {α} {a : Option α} (b : Option α) (h : a.isSome) :
    (a.or b).isSome := by
  cases a
  · simp at h
  · rfl

/-- A reconciliation pass never drops a row: any row id found before is
still found after (possibly with rewritten columns). -/
lemma sync_preserves_find_id (env : Env) (now : String) (sub : StripeSub)
    (custom : SMap) (s : St) (i : String)
    (h : (s.rows.find? (fun r => r.id == i)).isSome) :
    ((syncFromStripe env now sub custom s).rows.find?
      (fun r => r.id == i)).isSome := by
  have happ : ∀ R : Subscription,
      ((s.rows ++ [R]).find? (fun r => r.id == i)).isSome := by
    intro R
    rw [List.find?_append]
    exact isSome_or_left _ h
  have hmap : ∀ (x : String) (p : SyncPayload),
      ((s.rows.map fun r =>
        if r.id == x then applyPayload r p else r).find?
          (fun r => r.id == i)).isSome := by
    intro x p
    rw [find_id_map_pres _ _ _
      (guard_map_id_pres x (fun r => applyPayload r p)
        (fun r => applyPayload_id r p))]
    rcases hx : s.rows.find? (fun r => r.id == i) with _ | r
    · rw [hx] at h
      simp at h
    · rw [hx]
      rfl
  simp only [syncFromStripe, log, findByStripeSubscriptionId]
  repeat' split
  all_goals first
    | exact h
    | exact happ _
    | exact hmap _ _

lemma ensureAccess_ok (sub : Subscription) (req : String) (isAdmin : Bool)
    (hacc : isAdmin = true ∨ sub.user_id = req) :
    ensureAccess sub req isAdmin = .ok () := by
  rcases hacc with h | h
  · simp [ensureAccess, h]
  · cases isAdmin
    · simp [ensureAccess, h]
    · simp [ensureAccess]

lemma getById_ok (i : String) (s : St) (sub : Subscription)
    (hval : isValidUUID i = true)
    (hfind : s.rows.find? (fun r => r.id == i) = some sub) :
    getById i s = (.ok sub, log s (.dbSelect "subscriptions")) := by
  simp [getById, hval, log_rows, hfind]

lemma getById_ok_of_isSome (i : String) (s : St)
    (hval : isValidUUID i = true)
    (h : (s.rows.find? (fun r => r.id == i)).isSome) :
    ∃ r, getById i s = (.ok r, log s (.dbSelect "subscriptions")) := by
  rcases hx : s.rows.find? (fun r => r.id == i) with _ | r
  · rw [hx] at h
    simp at h
  · exact ⟨r, getById_ok i s r hval hx⟩

lemma updateRowsById_find (s : St) (i : String) (p : LocalPatch) :
    (updateRowsById s i p).rows.find? (fun r => r.id == i) =
      (s.rows.find? (fun r => r.id == i)).map
        (fun r => applyLocalPatch r p) := by
  show (s.rows.map fun r =>
      if r.id == i then applyLocalPatch r p else r).find?
        (fun r => r.id == i) = _
  rw [find_id_map_pres _ _ _
    (guard_map_id_pres i (fun r => applyLocalPatch r p)
      (fun r => applyLocalPatch_id r p))]
  rcases hx : s.rows.find? (fun r => r.id == i) with _ | r
  · rw [hx]
    rfl
  · have hr := List.find?_some hx
    simp only at hr
    have hr2 : r.id = i := by simpa using hr
    rw [hx]
    simp [hr2]

lemma getById_after_patch (i : String) (s2 : St) (p : LocalPatch)
    (hval : isValidUUID i = true)
    (h2 : (s2.rows.find? (fun r => r.id == i)).isSome) :
    ∃ r2, (getById i (updateRowsById s2 i p)).1 = .ok r2 := by
  have hs : ((updateRowsById s2 i p).rows.find?
      (fun r => r.id == i)).isSome := by
    rw [updateRowsById_find]
    rcases hx : s2.rows.find? (fun r => r.id == i) with _ | r
    · rw [hx] at h2
      simp at h2
    · rw [hx]
      rfl
  rcases getById_ok_of_isSome i _ hval hs with ⟨r2, hr2⟩
  exact ⟨r2, by rw [hr2]⟩

lemma gwCalls_log_db (s : St) (t : String) :
    gwCalls (log s (.dbSelect t)) = gwCalls s := by
  simp [gwCalls, log, List.filter_append, isGw]

lemma pauseGuardFail (env : Env) (now id requesterId : String)
    (isAdmin : Bool) (s : St) (sub : Subscription) (dto : PauseDto)
    (hval : isValidUUID id = true)
    (hfind : s.rows.find? (fun r => r.id == id) = some sub)
    (hacc : isAdmin = true ∨ sub.user_id = requesterId)
    (hst : ACTIVE_STATUSES.contains sub.status = false) :
    pause env now id requesterId dto isAdmin s =
      (.error (.badRequest "Only active subscriptions can be paused"),
        log s (.dbSelect "subscriptions")) := by
  unfold pause
  rw [getById_ok id s sub hval hfind]
  dsimp only
  rw [ensureAccess_ok sub requesterId isAdmin hacc]
  dsimp only
  rw [hst]
  simp

lemma pauseGuardOk (env : Env) (now id requesterId : String)
    (isAdmin : Bool) (s : St) (sub : Subscription) (dto : PauseDto)
    (hval : isValidUUID id = true)
    (hfind : s.rows.find? (fun r => r.id == id) = some sub)
    (hacc : isAdmin = true ∨ sub.user_id = requesterId)
    (hst : ACTIVE_STATUSES.contains sub.status = true) :
    ∃ r2, (pause env now id requesterId dto isAdmin s).1 = .ok r2 := by
  have hsome : (s.rows.find? (fun r => r.id == id)).isSome := by
    rw [hfind]
    rfl
  unfold pause
  rw [getById_ok id s sub hval hfind]
  dsimp only
  rw [ensureAccess_ok sub requesterId isAdmin hacc]
  dsimp only
  rw [hst]
  simp only [Bool.not_true, Bool.false_eq_true, if_false]
  rcases hsid : sub.stripe_subscription_id with _ | sid
  · exact getById_after_patch id _ _ hval hsome
  · by_cases hsid0 : sid == ""
    · simp only [hsid0, if_true]
      exact getById_after_patch id _ _ hval hsome
    · simp only [hsid0, Bool.false_eq_true, if_false]
      exact getById_after_patch id _ _ hval
        (sync_preserves_find_id _ _ _ _ _ _ hsome)

lemma resumeGuardFail (env : Env) (now id requesterId : String)
    (isAdmin : Bool) (s : St) (sub : Subscription) (dto : ResumeDto)
    (hval : isValidUUID id = true)
    (hfind : s.rows.find? (fun r => r.id == id) = some sub)
    (hacc : isAdmin = true ∨ sub.user_id = requesterId)
    (hst : sub.status ≠ .paused) :
    resume env now id requesterId dto isAdmin s =
      (.error (.badRequest "Only paused subscriptions can be resumed"),
        log s (.dbSelect "subscriptions")) := by
  unfold resume
  rw [getById_ok id s sub hval hfind]
  dsimp only
  rw [ensureAccess_ok sub requesterId isAdmin hacc]
  dsimp only
  simp [hst]

lemma resumeGuardOk (env : Env) (now id requesterId : String)
    (isAdmin : Bool) (s : St) (sub : Subscription) (dto : ResumeDto)
    (hval : isValidUUID id = true)
    (hfind : s.rows.find? (fun r => r.id == id) = some sub)
    (hacc : isAdmin = true ∨ sub.user_id = requesterId)
    (hst : sub.status = .paused) :
    ∃ r2, (resume env now id requesterId dto isAdmin s).1 = .ok r2 := by
  have hsome : (s.rows.find? (fun r => r.id == id)).isSome := by
    rw [hfind]
    rfl
  unfold resume
  rw [getById_ok id s sub hval hfind]
  dsimp only
  rw [ensureAccess_ok sub requesterId isAdmin hacc]
  dsimp only
  rw [hst]
  simp only [beq_self_eq_true, Bool.not_true, Bool.false_eq_true, if_false]
  rcases hsid : sub.stripe_subscription_id with _ | sid
  · exact getById_after_patch id _ _ hval hsome
  · by_cases hsid0 : sid == ""
    · simp only [hsid0, if_true]
      exact getById_after_patch id _ _ hval hsome
    · simp only [hsid0, Bool.false_eq_true, if_false]
      exact getById_after_patch id _ _ hval
        (sync_preserves_find_id _ _ _ _ _ _ hsome)

lemma cancelGuardFail (env : Env) (now id requesterId : String)
    (isAdmin : Bool) (s : St) (sub : Subscription) (dto : CancelDto)
    (hval : isValidUUID id = true)
    (hfind : s.rows.find? (fun r => r.id == id) = some sub)
    (hacc : isAdmin = true ∨ sub.user_id = requesterId)
    (hst : sub.status = .canceled) :
    cancel env now id requesterId dto isAdmin s =
      (.error (.badRequest "Subscription is already canceled"),
        log s (.dbSelect "subscriptions")) := by
  unfold cancel
  rw [getById_ok id s sub hval hfind]
  dsimp only
  rw [ensureAccess_ok sub requesterId isAdmin hacc]
  dsimp only
  simp [hst]

lemma cancelGuardOk (env : Env) (now id requesterId : String)
    (isAdmin : Bool) (s : St) (sub : Subscription) (dto : CancelDto)
    (hval : isValidUUID id = true)
    (hfind : s.rows.find? (fun r => r.id == id) = some sub)
    (hacc : isAdmin = true ∨ sub.user_id = requesterId)
    (hst : sub.status ≠ .canceled) :
    ∃ r2, (cancel env now id requesterId dto isAdmin s).1 = .ok r2 := by
  have hsome : (s.rows.find? (fun r => r.id == id)).isSome := by
    rw [hfind]
    rfl
  have hstb : (sub.status == SubscriptionStatus.canceled) = false := by
    simpa using hst
  unfold cancel
  rw [getById_ok id s sub hval hfind]
  dsimp only
  rw [ensureAccess_ok sub requesterId isAdmin hacc]
  dsimp only
  rw [hstb]
  simp only [Bool.false_eq_true, if_false]
  rcases hsid : sub.stripe_subscription_id with _ | sid
  · exact getById_after_patch id _ _ hval hsome
  · by_cases hsid0 : sid == ""
    · simp only [hsid0, if_true]
      exact getById_after_patch id _ _ hval hsome
    · simp only [hsid0, Bool.false_eq_true, if_false]
      exact getById_after_patch id _ _ hval
        (sync_preserves_find_id _ _ _ _ _ _ hsome)

/-- C4: pause raises a BusinessRule error unless the status is in the
active-like set and succeeds otherwise; resume raises a BusinessRule
error unless the status is exactly paused and succeeds otherwise;
cancel raises a BusinessRule error exactly on already-canceled records,
in which failure case no billing-gateway call is made and the local
rows are left unchanged. -/
theorem c4_pause_resume_cancel_guards
    (env : Env) (now id requesterId : String) (isAdmin : Bool) (s : St)
    (sub : Subscription)
    (hval : isValidUUID id = true)
    (hfind : s.rows.find? (fun r => r.id == id) = some sub)
    (hacc : isAdmin = true ∨ sub.user_id = requesterId) :
    (∀ dto : PauseDto, ACTIVE_STATUSES.contains sub.status = false →
      (pause env now id requesterId dto isAdmin s).1 =
        .error (.badRequest "Only active subscriptions can be paused") ∧
      (pause env now id requesterId dto isAdmin s).2.rows = s.rows ∧
      gwCalls (pause env now id requesterId dto isAdmin s).2 = gwCalls s) ∧
    (∀ dto : PauseDto, ACTIVE_STATUSES.contains sub.status = true →
      ∃ r2, (pause env now id requesterId dto isAdmin s).1 = .ok r2) ∧
    (∀ dto : ResumeDto, sub.status ≠ .paused →
      (resume env now id requesterId dto isAdmin s).1 =
        .error (.badRequest "Only paused subscriptions can be resumed") ∧
      (resume env now id requesterId dto isAdmin s).2.rows = s.rows ∧
      gwCalls (resume env now id requesterId dto isAdmin s).2 = gwCalls s) ∧
    (∀ dto : ResumeDto, sub.status = .paused →
      ∃ r2, (resume env now id requesterId dto isAdmin s).1 = .ok r2) ∧
    (∀ dto : CancelDto, sub.status = .canceled →
      (cancel env now id requesterId dto isAdmin s).1 =
        .error (.badRequest "Subscription is already canceled") ∧
      (cancel env now id requesterId dto isAdmin s).2.rows = s.rows ∧
      gwCalls (cancel env now id requesterId dto isAdmin s).2 = gwCalls s) ∧
    (∀ dto : CancelDto, sub.status ≠ .canceled →
      ∃ r2, (cancel env now id requesterId dto isAdmin s).1 = .ok r2) := by
  refine ⟨?_, ?_, ?_, ?_, ?_, ?_⟩
  · intro dto hst
    rw [pauseGuardFail env now id requesterId isAdmin s sub dto
      hval hfind hacc hst]
    exact ⟨rfl, rfl, (gwCalls_log_db s "subscriptions").symm ▸ rfl⟩
  · intro dto hst
    exact pauseGuardOk env now id requesterId isAdmin s sub dto
      hval hfind hacc hst
  · intro dto hst
    rw [resumeGuardFail env now id requesterId isAdmin s sub dto
      hval hfind hacc hst]
    exact ⟨rfl, rfl, (gwCalls_log_db s "subscriptions").symm ▸ rfl⟩
  · intro dto hst
    exact resumeGuardOk env now id requesterId isAdmin s sub dto
      hval hfind hacc hst
  · intro dto hst
    rw [cancelGuardFail env now id requesterId isAdmin s sub dto
      hval hfind hacc hst]
    exact ⟨rfl, rfl, (gwCalls_log_db s "subscriptions").symm ▸ rfl⟩
  · intro dto hst
    exact cancelGuardOk env now id requesterId isAdmin s sub dto
      hval hfind hacc hst

/-- Witness for C4 at concrete inputs: on an already-canceled row every
guard fires, and cancel succeeds on an active row. -/
theorem c4_pause_resume_cancel_guards_witness :
    (pause envW "t1" idW userW {} true (stW .canceled)).1 =
      .error (.badRequest "Only active subscriptions can be paused") ∧
    (resume envW "t1" idW userW {} true (stW .canceled)).1 =
      .error (.badRequest "Only paused subscriptions can be resumed") ∧
    (cancel envW "t1" idW userW {} true (stW .canceled)).1 =
      .error (.badRequest "Subscription is already canceled") ∧
    (∃ r2, (cancel envW "t1" idW userW {} true (stW .active)).1 = .ok r2) := by
  have h1 := c4_pause_resume_cancel_guards envW "t1" idW userW true
    (stW .canceled) (rowW .canceled) (by decide) (by decide) (Or.inl rfl)
  have h2 := c4_pause_resume_cancel_guards envW "t1" idW userW true
    (stW .active) (rowW .active) (by decide) (by decide) (Or.inl rfl)
  refine ⟨(h1.1 {} (by decide)).1, (h1.2.2.1 {} (by decide)).1,
    (h1.2.2.2.2.1 {} (by decide)).1, h2.2.2.2.2.2 {} (by decide)⟩

lemma getById_updateRows_ok (i : String) (s2 : St) (p : LocalPatch)
    (sub2 : Subscription)
    (hval : isValidUUID i = true)
    (hfind2 : s2.rows.find? (fun r => r.id == i) = some sub2) :
    getById i (updateRowsById s2 i p) =
      (.ok (applyLocalPatch sub2 p),
        log (updateRowsById s2 i p) (.dbSelect "subscriptions")) := by
  apply getById_ok
  · exact hval
  · rw [updateRowsById_find, hfind2]
    rfl

/-- C8: resuming a local-only paused subscription sets status to
active, clears ended_at and the pause reason, and sets started_at to
the current time exactly when it was previously null. -/
theorem c8_resume_local_only
    (env : Env) (now id requesterId : String) (dto : ResumeDto)
    (isAdmin : Bool) (s : St) (sub : Subscription)
    (hval : isValidUUID id = true)
    (hfind : s.rows.find? (fun r => r.id == id) = some sub)
    (hacc : isAdmin = true ∨ sub.user_id = requesterId)
    (hlocal : sub.stripe_subscription_id = none)
    (hpaused : sub.status = .paused)
    (hstarted : sub.started_at ≠ some "") :
    ∃ r2, (resume env now id requesterId dto isAdmin s).1 = .ok r2 ∧
      r2.status = .active ∧ r2.ended_at = none ∧ r2.pause_reason = none ∧
      r2.started_at =
        (if sub.started_at = none then some now else sub.started_at) := by
  have hres : (resume env now id requesterId dto isAdmin s).1 =
      .ok (applyLocalPatch sub (resumeLocalPatch sub dto now)) := by
    unfold resume
    rw [getById_ok id s sub hval hfind]
    dsimp only
    rw [ensureAccess_ok sub requesterId isAdmin hacc]
    dsimp only
    rw [hpaused]
    simp only [beq_self_eq_true, Bool.not_true, Bool.false_eq_true, if_false]
    rw [hlocal]
    dsimp only
    rw [getById_updateRows_ok id (log s (.dbSelect "subscriptions"))
      (resumeLocalPatch sub dto now) sub hval hfind]
  refine ⟨_, hres, ?_, ?_, ?_, ?_⟩
  · simp [applyLocalPatch, resumeLocalPatch, stripeBacked, hlocal]
  · simp [applyLocalPatch, resumeLocalPatch, stripeBacked, hlocal]
  · simp [applyLocalPatch, resumeLocalPatch, stripeBacked, hlocal]
  · rcases hsa : sub.started_at with _ | v
    · simp [applyLocalPatch, resumeLocalPatch, stripeBacked, hlocal, hsa]
    · have hv : (v == "") = false := by
        rw [hsa] at hstarted
        simpa using hstarted
      simp [applyLocalPatch, resumeLocalPatch, stripeBacked, hlocal, hsa, hv]

/-- Witness for C8 at concrete inputs: a paused local-only row with no
start date resumes to active with started_at set to the current time. -/
theorem c8_resume_local_only_witness :
    ∃ r2, (resume envW "t1" idW userW {} true (stW .paused)).1 = .ok r2 ∧
      r2.status = .active ∧ r2.ended_at = none ∧ r2.pause_reason = none ∧
      r2.started_at =
        (if (rowW .paused).started_at = none then some "t1"
          else (rowW .paused).started_at) :=
  c8_resume_local_only envW "t1" idW userW {} true (stW .paused)
    (rowW .paused) (by decide) (by decide) (Or.inl rfl) rfl rfl (by decide)

/-- C3: create rejects with the BusinessRule error and inserts nothing
whenever the target user already holds a row in the
active-like-or-paused set; and a passed creation gate means the user
held no such row, so a state extended by the one created row has at
most one active-like row for that user. -/
theorem c3_create_unique_active_gate :
    (∀ (env : Env) (now : String) (requester : Requester) (dto : CreateDto)
      (isAdmin : Bool) (s : St),
      isValidUUID (dto.user_id.getD requester.id) = true →
      (isAdmin = true ∨ dto.user_id.getD requester.id = requester.id) →
      (∃ r ∈ s.rows, r.user_id = dto.user_id.getD requester.id ∧
        (ACTIVE_STATUSES ++ [SubscriptionStatus.paused]).contains r.status
          = true) →
      (create env now requester dto isAdmin s).1 =
        .error (.badRequest
          "An active subscription already exists for this user") ∧
      (create env now requester dto isAdmin s).2.rows = s.rows) ∧
    (∀ (u : String) (s : St),
      (ensureUserCanStartNew u s).1 = .ok () →
      ∀ rNew : Subscription,
        ((s.rows ++ [rNew]).countP
          (fun r => r.user_id == u &&
            ACTIVE_STATUSES.contains r.status)) ≤ 1) := by
  constructor
  · intro env now requester dto isAdmin s hval hacc hex
    have hany : (s.rows.any fun r =>
        r.user_id == (dto.user_id.getD requester.id) &&
          (ACTIVE_STATUSES ++ [SubscriptionStatus.paused]).contains r.status)
        = true := by
      rcases hex with ⟨r, hmem, huser, hstatus⟩
      rw [List.any_eq_true]
      refine ⟨r, hmem, ?_⟩
      have hm : r.status ∈ ACTIVE_STATUSES ++ [SubscriptionStatus.paused] := by
        simpa using hstatus
      simp [huser]
      rcases List.mem_append.mp hm with h | h
      · exact Or.inl h
      · simp at h
        exact Or.inr h
    have hadm : (!isAdmin &&
        !(dto.user_id.getD requester.id == requester.id)) = false := by
      rcases hacc with h | h
      · simp [h]
      · simp [h]
    have hcr : create env now requester dto isAdmin s =
        (.error (.badRequest
          "An active subscription already exists for this user"),
          log s (.dbSelect "subscriptions")) := by
      simp only [create]
      rw [hval]
      simp only [Bool.not_true, Bool.false_eq_true, if_false]
      rw [hadm]
      simp only [Bool.false_eq_true, if_false]
      unfold ensureUserCanStartNew
      dsimp only [log]
      rw [hany]
      simp [log]
    exact ⟨by rw [hcr], by rw [hcr]; rfl⟩
  · intro u s hok rNew
    have hany : (s.rows.any fun r =>
        r.user_id == u &&
          (ACTIVE_STATUSES ++ [SubscriptionStatus.paused]).contains r.status)
        = false := by
      by_contra hne
      have htrue : (s.rows.any fun r =>
          r.user_id == u &&
            (ACTIVE_STATUSES ++ [SubscriptionStatus.paused]).contains
              r.status) = true := by
        revert hne
        cases s.rows.any fun r =>
            r.user_id == u &&
              (ACTIVE_STATUSES ++ [SubscriptionStatus.paused]).contains
                r.status
        · intro hne
          exact absurd rfl hne
        · intro _
          rfl
      unfold ensureUserCanStartNew at hok
      dsimp only [log] at hok
      rw [htrue] at hok
      simp at hok
    have hall := List.any_eq_false.mp hany
    have hzero : s.rows.countP
        (fun r => r.user_id == u && ACTIVE_STATUSES.contains r.status)
        = 0 := by
      rw [List.countP_eq_zero]
      intro r hmem hp
      apply hall r hmem
      have h12 : r.user_id = u ∧ r.status ∈ ACTIVE_STATUSES := by
        simpa using hp
      have hm2 : r.status ∈ ACTIVE_STATUSES ++ [SubscriptionStatus.paused] :=
        List.mem_append_left _ h12.2
      simp [h12.1, hm2]
    rw [List.countP_append, hzero]
    have hone : List.countP
        (fun r => r.user_id == u && ACTIVE_STATUSES.contains r.status)
        [rNew] ≤ 1 := by
      simp only [List.countP_cons, List.countP_nil]
      split <;> simp
    omega

/-- Witness for C3 at concrete inputs: a second create for a user with
an active row fails with the BusinessRule error and leaves the table
unchanged, and a passed gate bounds the active-like count by one. -/
theorem c3_create_unique_active_gate_witness :
    ((create envW "t1" ⟨userW, none, none⟩ {} false (stW .active)).1 =
      .error (.badRequest
        "An active subscription already exists for this user") ∧
    (create envW "t1" ⟨userW, none, none⟩ {} false (stW .active)).2.rows =
      (stW .active).rows) ∧
    ((st0.rows ++ [rowW .active]).countP
      (fun r => r.user_id == userW &&
        ACTIVE_STATUSES.contains r.status)) ≤ 1 := by
  constructor
  · exact c3_create_unique_active_gate.1 envW "t1" ⟨userW, none, none⟩ {}
      false (stW .active) (by decide) (Or.inr rfl)
      ⟨rowW .active, by decide, rfl, by decide⟩
  · exact c3_create_unique_active_gate.2 userW st0 rfl (rowW .active)

/-- C6: the owning user is resolved by strict priority (existing row,
then customer mapping, then metadata hint), and when nothing resolves
the reconciliation returns silently, leaving the rows untouched and
performing no datastore write. -/
theorem c6_user_resolution_priority_and_silent_abort :
    (∀ (env : Env) (r : Subscription) (scid : String) (meta : SMap),
      r.user_id ≠ "" →
      resolveUserId env (some r) scid meta = some r.user_id) ∧
    (∀ (env : Env) (scid : String) (meta : SMap) (u : String),
      env.customerUser scid = some u → u ≠ "" →
      resolveUserId env none scid meta = some u) ∧
    (∀ (env : Env) (scid : String) (meta : SMap),
      env.customerUser scid = none →
      falsyStr (lookupKey meta "user_id") = false →
      resolveUserId env none scid meta = lookupKey meta "user_id") ∧
    (∀ (env : Env) (now : String) (sub : StripeSub) (custom : SMap) (s : St),
      falsyStr (resolveUserId env
        (findByStripeSubscriptionId s.rows sub.id)
        ((stripeCustomerIdOf sub.customer).getD "") sub.metadata) = true →
      (syncFromStripe env now sub custom s).rows = s.rows ∧
      dbWrites (syncFromStripe env now sub custom s) = dbWrites s) := by
  refine ⟨?_, ?_, ?_, ?_⟩
  · intro env r scid meta hne
    have hf : falsyStr (some r.user_id) = false := by simpa using hne
    simp [resolveUserId, hf]
  · intro env scid meta u hmap hne
    have hf : falsyStr (some u) = false := by simpa using hne
    simp [resolveUserId, hmap, hf]
  · intro env scid meta hmap hhint
    simp [resolveUserId, hmap, hhint]
  · intro env now sub custom s habort
    simp only [findByStripeSubscriptionId] at habort
    simp only [syncFromStripe, log, findByStripeSubscriptionId]
    cases hcb : falsyStr (stripeCustomerIdOf sub.customer)
    · simp only [hcb, Bool.false_eq_true, if_false]
      rw [habort]
      simp only [if_true]
      constructor
      · split <;> rfl
      · split <;>
          simp [dbWrites, isDbWrite, List.filter_append]
    · simp only [hcb, if_true]
      refine ⟨?_, ?_⟩
      · trivial
      · simp [dbWrites, isDbWrite, List.filter_append]

/-- Witness for C6 at concrete inputs: a row with a non-empty user id
wins over mapping and hint; a mapped customer id resolves; a metadata
hint resolves when the mapping is empty; and an unattributable snapshot
leaves the empty state unchanged with no write. -/
theorem c6_user_resolution_priority_and_silent_abort_witness :
    resolveUserId envW (some (rowW .active)) "cus_1"
      [("user_id", "hint")] = some userW ∧
    resolveUserId { envW with customerUser := fun _ => some "mapped" }
      none "cus_1" [] = some "mapped" ∧
    resolveUserId envW none "cus_1" [("user_id", "hint")] =
      lookupKey [("user_id", "hint")] "user_id" ∧
    (syncFromStripe envW "t1" stripeSubW [] st0).rows = st0.rows ∧
    dbWrites (syncFromStripe envW "t1" stripeSubW [] st0) = dbWrites st0 := by
  have h := c6_user_resolution_priority_and_silent_abort
  exact ⟨h.1 envW (rowW .active) "cus_1" [("user_id", "hint")] (by decide),
    h.2.1 { envW with customerUser := fun _ => some "mapped" }
      "cus_1" [] "mapped" rfl (by decide),
    h.2.2.1 envW "cus_1" [("user_id", "hint")] rfl (by decide),
    h.2.2.2 envW "t1" stripeSubW [] st0 (by decide)⟩

/-- C10 counterexample: on a snapshot with no customer identifier (and
a user-id hint) the reconciliation does perform the lookup of the
subscriptions table by external id before the customer check, so it
does not return "without reading any local subscription row": the trace
gains exactly that read (and here the table even holds a matching row
that the lookup returns). -/
theorem c10_counterexample_reads_subscriptions :
    (syncFromStripe envW "t1" subNoCustomer [] st10).trace =
      st10.trace ++ [Effect.dbSelect "subscriptions"] ∧
    ¬ ((syncFromStripe envW "t1" subNoCustomer [] st10).trace =
      st10.trace) := by
  constructor
  · decide
  · decide

/-- C10 amended: for every snapshot whose customer id is JS-falsy the
reconciliation returns without raising an error, without writing any
local subscription row and without resolving the user (even when a
user-id metadata hint is present) — but only after the one lookup of
the subscriptions table by external id, which is the entire effect. -/
theorem c10_sync_missing_customer_amended (env : Env) (now : String)
    (sub : StripeSub) (custom : SMap) (s : St)
    (hc : falsyStr (stripeCustomerIdOf sub.customer) = true) :
    syncFromStripe env now sub custom s =
      log s (.dbSelect "subscriptions") := by
  simp [syncFromStripe, hc]

/-- Witness for the amended C10 at concrete inputs. -/
theorem c10_sync_missing_customer_amended_witness :
    syncFromStripe envW "t1" subNoCustomer [] st10 =
      log st10 (.dbSelect "subscriptions") :=
  c10_sync_missing_customer_amended envW "t1" subNoCustomer [] st10
    (by decide)

lemma filter_ne_find_none (l : List Subscription) (i : String) :
    (l.filter (fun r => !(r.id == i))).find? (fun r => r.id == i) = none := by
  rw [List.find?_eq_none]
  intro x hx
  have hmem := List.mem_filter.mp hx
  simp at hmem ⊢
  exact hmem.2

lemma getById_trace_filter (i : String) (s : St) :
    (getById i s).2.trace.filter isGwDelete =
      s.trace.filter isGwDelete := by
  unfold getById
  split
  · rfl
  · dsimp only
    split <;> simp [log, List.filter_append, isGwDelete]

lemma updateRowsById_trace_filter (s : St) (i : String) (p : LocalPatch) :
    (updateRowsById s i p).trace.filter isGwDelete =
      s.trace.filter isGwDelete := by
  simp [updateRowsById, log, List.filter_append, isGwDelete]

lemma sync_trace_filter (env : Env) (now : String) (sub : StripeSub)
    (custom : SMap) (s : St) :
    (syncFromStripe env now sub custom s).trace.filter isGwDelete =
      s.trace.filter isGwDelete := by
  simp only [syncFromStripe, log, findByStripeSubscriptionId]
  repeat' split
  all_goals simp [List.filter_append, isGwDelete]

lemma cancel_trace_filter (env : Env) (now : String)
    (id req : String) (dto : CancelDto) (isAdmin : Bool) (s : St) :
    (cancel env now id req dto isAdmin s).2.trace.filter isGwDelete =
      s.trace.filter isGwDelete := by
  have hg := getById_trace_filter id s
  unfold cancel
  split
  case h_1 e s1 heq =>
    rw [heq] at hg
    exact hg
  case h_2 sub s1 heq =>
    rw [heq] at hg
    dsimp only at hg
    split
    · exact hg
    · split
      · exact hg
      · rw [getById_trace_filter, updateRowsById_trace_filter]
        rcases hss : sub.stripe_subscription_id with _ | sid
        · simp only [hss]
          exact hg
        · simp only [hss]
          by_cases hsid : sid == ""
          · simp only [hsid, if_true]
            exact hg
          · simp only [hsid, Bool.false_eq_true, if_false]
            rw [sync_trace_filter]
            simp only [log, List.filter_append]
            rw [hg]
            simp [isGwDelete]

/-- C7: a non-privileged remove fails with the BusinessRule error (and
changes nothing) unless the status is canceled or expired; a privileged
remove succeeds unconditionally and the row is gone; when the record is
externally backed and not canceled, remove routes through the internal
cancel with reason Deleted via API and then hard-deletes the row; and
remove never emits a gateway subscription-delete call. -/
theorem c7_remove_guard_cancel_delete :
    (∀ (env : Env) (now id requesterId : String) (s : St)
      (sub : Subscription),
      isValidUUID id = true →
      s.rows.find? (fun r => r.id == id) = some sub →
      sub.user_id = requesterId →
      ([SubscriptionStatus.canceled,
        SubscriptionStatus.expired].contains sub.status) = false →
      remove env now id requesterId false s =
        (.error (.badRequest
          "Only canceled or expired subscriptions can be deleted"),
          log s (.dbSelect "subscriptions"))) ∧
    (∀ (env : Env) (now id requesterId : String) (s : St)
      (sub : Subscription),
      isValidUUID id = true →
      s.rows.find? (fun r => r.id == id) = some sub →
      (remove env now id requesterId true s).1 = .ok () ∧
      ((remove env now id requesterId true s).2.rows.find?
        (fun r => r.id == id)) = none) ∧
    (∀ (env : Env) (now id requesterId : String) (isAdmin : Bool) (s : St)
      (sub : Subscription),
      isValidUUID id = true →
      s.rows.find? (fun r => r.id == id) = some sub →
      (isAdmin = true ∨ sub.user_id = requesterId) →
      (!isAdmin && !([SubscriptionStatus.canceled,
        SubscriptionStatus.expired].contains sub.status)) = false →
      stripeBacked sub = true →
      sub.status ≠ .canceled →
      (remove env now id requesterId isAdmin s).1 = .ok () ∧
      (remove env now id requesterId isAdmin s).2.rows =
        (cancel env now id requesterId { reason := some "Deleted via API" }
          isAdmin (log s (.dbSelect "subscriptions"))).2.rows.filter
            (fun r => !(r.id == id)) ∧
      (remove env now id requesterId isAdmin s).2.trace =
        (cancel env now id requesterId { reason := some "Deleted via API" }
          isAdmin (log s (.dbSelect "subscriptions"))).2.trace ++
            [Effect.dbDelete "subscriptions"]) ∧
    (∀ (env : Env) (now id requesterId : String) (isAdmin : Bool) (s : St),
      gwDeletes (remove env now id requesterId isAdmin s).2 =
        gwDeletes s) := by
  refine ⟨?_, ?_, ?_, ?_⟩
  · intro env now id requesterId s sub hval hfind huser hst
    unfold remove
    rw [getById_ok id s sub hval hfind]
    dsimp only
    rw [ensureAccess_ok sub requesterId false (Or.inr huser)]
    dsimp only
    rw [hst]
    simp
  · intro env now id requesterId s sub hval hfind
    unfold remove
    rw [getById_ok id s sub hval hfind]
    dsimp only
    rw [ensureAccess_ok sub requesterId true (Or.inl rfl)]
    dsimp only
    simp only [Bool.not_true, Bool.false_and, Bool.false_eq_true, if_false]
    by_cases hstep : (stripeBacked sub &&
        !(sub.status == SubscriptionStatus.canceled)) = true
    · rw [if_pos hstep]
      have hnc : sub.status ≠ .canceled := by
        rcases Bool.and_eq_true_iff.mp hstep with ⟨_, h2⟩
        simpa using h2
      rcases cancelGuardOk env now id requesterId true
          (log s (Effect.dbSelect "subscriptions")) sub
          { reason := some "Deleted via API" } hval hfind (Or.inl rfl) hnc
        with ⟨r2, hr2⟩
      rcases hc2 : cancel env now id requesterId
          { reason := some "Deleted via API" } true
          (log s (Effect.dbSelect "subscriptions")) with ⟨cres, s2⟩
      rw [hc2] at hr2
      dsimp only at hr2
      rw [hr2]
      dsimp only
      exact ⟨rfl, filter_ne_find_none _ _⟩
    · rw [if_neg (by simpa using hstep)]
      dsimp only
      exact ⟨rfl, filter_ne_find_none _ _⟩
  · intro env now id requesterId isAdmin s sub hval hfind hacc hgate hsb hnc
    unfold remove
    rw [getById_ok id s sub hval hfind]
    dsimp only
    rw [ensureAccess_ok sub requesterId isAdmin hacc]
    dsimp only
    rw [hgate]
    simp only [Bool.false_eq_true, if_false]
    have hstep : (stripeBacked sub &&
        !(sub.status == SubscriptionStatus.canceled)) = true := by
      simp [hsb, hnc]
    rw [if_pos hstep]
    rcases cancelGuardOk env now id requesterId isAdmin
        (log s (Effect.dbSelect "subscriptions")) sub
        { reason := some "Deleted via API" } hval hfind hacc hnc
      with ⟨r2, hr2⟩
    rcases hc2 : cancel env now id requesterId
        { reason := some "Deleted via API" } isAdmin
        (log s (Effect.dbSelect "subscriptions")) with ⟨cres, s2⟩
    rw [hc2] at hr2
    dsimp only at hr2
    rw [hr2]
    dsimp only
    exact ⟨rfl, rfl, rfl⟩
  · intro env now id requesterId isAdmin s
    have hg := getById_trace_filter id s
    unfold remove
    split
    case h_1 e s1 heq =>
      rw [heq] at hg
      exact hg
    case h_2 sub s1 heq =>
      rw [heq] at hg
      dsimp only at hg
      split
      · exact hg
      · split
        · exact hg
        · split
          case isTrue =>
            rcases hc2 : cancel env now id requesterId
                { reason := some "Deleted via API" } isAdmin s1
              with ⟨cres, s2⟩
            have hct := cancel_trace_filter env now id requesterId
              { reason := some "Deleted via API" } isAdmin s1
            rw [hc2] at hct
            simp only at hct
            cases cres
            case error e =>
              dsimp only [gwDeletes]
              rw [hct]
              exact hg
            case ok r2 =>
              dsimp only [gwDeletes]
              simp only [log, List.filter_append]
              rw [hct]
              simpa [isGwDelete] using hg
          case isFalse =>
            dsimp only [gwDeletes]
            simp only [log, List.filter_append]
            simpa [isGwDelete] using hg

/-- Witness for C7 at concrete inputs: a non-privileged remove of an
active row fails with the BusinessRule error; a privileged remove of a
canceled row succeeds and the row is gone; a privileged remove of an
externally-backed active row routes through cancel and deletes; and no
gateway delete call is ever emitted. -/
theorem c7_remove_guard_cancel_delete_witness :
    (remove envW "t1" idW userW false (stW .active) =
      (.error (.badRequest
        "Only canceled or expired subscriptions can be deleted"),
        log (stW .active) (.dbSelect "subscriptions"))) ∧
    ((remove envW "t1" idW userW true (stW .canceled)).1 = .ok () ∧
      ((remove envW "t1" idW userW true (stW .canceled)).2.rows.find?
        (fun r => r.id == idW)) = none) ∧
    ((remove envW "t1" idW userW true st10).1 = .ok () ∧
      (remove envW "t1" idW userW true st10).2.rows =
        (cancel envW "t1" idW userW { reason := some "Deleted via API" }
          true (log st10 (.dbSelect "subscriptions"))).2.rows.filter
            (fun r => !(r.id == idW)) ∧
      (remove envW "t1" idW userW true st10).2.trace =
        (cancel envW "t1" idW userW { reason := some "Deleted via API" }
          true (log st10 (.dbSelect "subscriptions"))).2.trace ++
            [Effect.dbDelete "subscriptions"]) ∧
    gwDeletes (remove envW "t1" idW userW true st10).2 = gwDeletes st10 := by
  have h := c7_remove_guard_cancel_delete
  exact ⟨h.1 envW "t1" idW userW (stW .active) (rowW .active)
      (by decide) (by decide) rfl (by decide),
    h.2.1 envW "t1" idW userW (stW .canceled) (rowW .canceled)
      (by decide) (by decide),
    h.2.2.1 envW "t1" idW userW true st10 rowSynced
      (by decide) (by decide) (Or.inl rfl) (by decide) (by decide)
      (by decide),
    h.2.2.2 envW "t1" idW userW true st10⟩

lemma isValidUUID_ne_empty (u : String) (h : isValidUUID u = true) :
    u ≠ "" := by
  intro heq
  rw [heq] at h
  exact absurd h (by decide)

lemma resolveUserId_existing (env : Env) (scid : String) (meta : SMap)
    (r : Subscription) (hne : r.user_id ≠ "") :
    resolveUserId env (some r) scid meta = some r.user_id := by
  have hf : falsyStr (some r.user_id) = false := by simpa using hne
  simp [resolveUserId, hf]

lemma buildPayload_user_id (env : Env) (now : String) (subU : StripeSub)
    (custom : SMap) (ex : Option Subscription) (u scid : String) :
    (buildPayload env now subU custom ex u scid).user_id = u := by
  unfold buildPayload
  dsimp only
  split <;> rfl

lemma applyPayload_user_id (r : Subscription) (p : SyncPayload) :
    (applyPayload r p).user_id = p.user_id := rfl

lemma applyLocalPatch_user_id (r : Subscription) (p : LocalPatch) :
    (applyLocalPatch r p).user_id = r.user_id := rfl

/-- When the snapshot's external id finds the same row `sub` that was
fetched by local id, a reconciliation pass leaves the row findable by
its id with an unchanged owning user. -/
lemma sync_find_id_user (env : Env) (now : String) (subU : StripeSub)
    (custom : SMap) (s : St) (id : String) (sub : Subscription)
    (hfind : s.rows.find? (fun r => r.id == id) = some sub)
    (hfinds : s.rows.find?
      (fun r => r.stripe_subscription_id == some subU.id) = some sub)
    (hne : sub.id ≠ "")
    (hru : sub.user_id ≠ "") :
    ((syncFromStripe env now subU custom s).rows.find?
      (fun r => r.id == id)).map (·.user_id) = some sub.user_id := by
  have hru2 : falsyStr (some sub.user_id) = false := by simpa using hru
  have hid0 : (sub.id == "") = false := by simpa using hne
  simp only [syncFromStripe, log, findByStripeSubscriptionId]
  cases hcb : falsyStr (stripeCustomerIdOf subU.customer)
  · simp only [hcb, Bool.false_eq_true, if_false]
    rw [hfinds]
    rw [resolveUserId_existing env _ subU.metadata sub hru]
    simp only [Option.map_some', hru2, Bool.false_eq_true, if_false,
      Bool.false_and]
    rcases hinv : subU.latest_invoice with _ | li
    · simp only [hinv, hid0, Bool.false_eq_true, if_false]
      rw [find_id_map_pres _ _ _
        (guard_map_id_pres sub.id _ (fun r => applyPayload_id r _))]
      rw [hfind]
      simp [applyPayload_user_id, buildPayload_user_id]
    · cases li
      case ref invId =>
        by_cases hi : invId == "" <;>
        · simp only [hinv, hi, hid0, Bool.false_eq_true, if_false, if_true]
          rw [find_id_map_pres _ _ _
            (guard_map_id_pres sub.id _ (fun r => applyPayload_id r _))]
          rw [hfind]
          simp [applyPayload_user_id, buildPayload_user_id]
      case obj h p =>
        simp only [hinv, hid0, Bool.false_eq_true, if_false]
        rw [find_id_map_pres _ _ _
          (guard_map_id_pres sub.id _ (fun r => applyPayload_id r _))]
        rw [hfind]
        simp [applyPayload_user_id, buildPayload_user_id]
  · simp only [hcb, if_true]
    rw [hfind]
    rfl

/-- The local tail of `update` preserves the owning user found before. -/
lemma finishUpdate_user (now id : String) (sub : Subscription)
    (dto : UpdateDto) (mm : Bool) (s3 : St) (u : String)
    (hval : isValidUUID id = true)
    (hfind3 : (s3.rows.find? (fun r => r.id == id)).map (·.user_id)
      = some u) :
    ∀ r2, (finishUpdate now id sub dto mm s3).1 = .ok r2 →
      r2.user_id = u := by
  rcases hx : s3.rows.find? (fun r => r.id == id) with _ | r3
  · rw [hx] at hfind3
    exact absurd hfind3 (by simp)
  · rw [hx] at hfind3
    have hu3 : r3.user_id = u := by simpa using hfind3
    intro r2 hr2
    unfold finishUpdate at hr2
    dsimp only at hr2
    by_cases hk : (updateLocalPatch sub dto mm now).hasOtherKeys = true
    · rw [if_pos hk] at hr2
      rw [getById_updateRows_ok id s3 (updateLocalPatch sub dto mm now) r3
        hval hx] at hr2
      dsimp only at hr2
      cases hr2
      rw [applyLocalPatch_user_id]
      exact hu3
    · rw [if_neg hk] at hr2
      rw [getById_ok id s3 r3 hval hx] at hr2
      dsimp only at hr2
      cases hr2
      exact hu3

/-- C5: update never changes the row's owning user for any patch; the
local updates objects of update, pause and cancel never carry the
period columns, and never carry status for an externally-backed row
(status and periods are written only by the reconciliation payload);
while for a local-only row update applies status, plan and plan_id from
the patch directly. -/
theorem c5_update_frame_fields :
    (∀ (env : Env) (now id requesterId : String) (dto : UpdateDto)
      (isAdmin : Bool) (s : St) (sub : Subscription),
      isValidUUID id = true →
      s.rows.find? (fun r => r.id == id) = some sub →
      (isAdmin = true ∨ sub.user_id = requesterId) →
      sub.user_id ≠ "" →
      (∀ sid, sub.stripe_subscription_id = some sid →
        (env.stripeRetrieve sid).id = sid ∧
        (∀ params, (env.stripeUpdate sid params).id = sid) ∧
        s.rows.find? (fun r => r.stripe_subscription_id == some sid)
          = some sub) →
      ∀ r2, (update env now id requesterId dto isAdmin s).1 = .ok r2 →
        r2.user_id = sub.user_id) ∧
    (∀ (sub : Subscription) (dto : UpdateDto) (mm : Bool)
      (pdto : PauseDto) (cdto : CancelDto) (now : String),
      ((updateLocalPatch sub dto mm now).current_period_start = none ∧
        (updateLocalPatch sub dto mm now).current_period_end = none ∧
        (pauseLocalPatch sub pdto now).current_period_start = none ∧
        (pauseLocalPatch sub pdto now).current_period_end = none ∧
        (cancelLocalPatch sub cdto now).current_period_start = none ∧
        (cancelLocalPatch sub cdto now).current_period_end = none) ∧
      (stripeBacked sub = true →
        (updateLocalPatch sub dto mm now).status = none ∧
        (pauseLocalPatch sub pdto now).status = none ∧
        (cancelLocalPatch sub cdto now).status = none)) ∧
    (∀ (sub : Subscription) (dto : UpdateDto) (mm : Bool) (now : String),
      stripeBacked sub = false →
      (updateLocalPatch sub dto mm now).status = dto.status ∧
      (dto.plan ≠ some "" →
        (updateLocalPatch sub dto mm now).plan = dto.plan) ∧
      (dto.plan_id ≠ some "" →
        (updateLocalPatch sub dto mm now).plan_id = dto.plan_id)) := by
  refine ⟨?_, ?_, ?_⟩
  · intro env now id requesterId dto isAdmin s sub hval hfind hacc hru hext
    have hne : sub.id ≠ "" := by
      have hsome := List.find?_some hfind
      simp only at hsome
      have hsid : sub.id = id := by simpa using hsome
      rw [hsid]
      exact isValidUUID_ne_empty id hval
    unfold update
    rw [getById_ok id s sub hval hfind]
    dsimp only
    rw [ensureAccess_ok sub requesterId isAdmin hacc]
    dsimp only
    rcases hss : sub.stripe_subscription_id with _ | sid
    · exact finishUpdate_user now id sub dto false _ sub.user_id hval
        (by rw [show (log s (Effect.dbSelect "subscriptions")).rows = s.rows
          from rfl, hfind]; rfl)
    · by_cases hsid : sid == ""
      · simp only [hsid, if_true]
        exact finishUpdate_user now id sub dto false _ sub.user_id hval
          (by rw [show (log s (Effect.dbSelect "subscriptions")).rows = s.rows
            from rfl, hfind]; rfl)
      · simp only [hsid, Bool.false_eq_true, if_false]
        obtain ⟨hret, hupd, hfinds⟩ := hext sid hss
        rcases hpr : resolvePrice env dto.plan_id dto.stripe_price_id dto.plan
          with e | pr
        · intro r2 h
          dsimp only at h
          simp at h
        · dsimp only
          split
          · apply finishUpdate_user now id sub dto true _ sub.user_id hval
            refine sync_find_id_user env now _ _ _ id sub ?_ ?_ hne hru
            · exact hfind
            · rw [hupd _]
              exact hfinds
          · apply finishUpdate_user now id sub dto true _ sub.user_id hval
            refine sync_find_id_user env now _ _ _ id sub ?_ ?_ hne hru
            · exact hfind
            · rw [hret]
              exact hfinds
  · intro sub dto mm pdto cdto now
    refine ⟨⟨rfl, rfl, rfl, rfl, rfl, rfl⟩, fun hb => ⟨?_, ?_, ?_⟩⟩
    · simp [updateLocalPatch, hb]
    · simp [pauseLocalPatch, hb]
    · simp [cancelLocalPatch, hb]
  · intro sub dto mm now hb
    refine ⟨?_, ?_, ?_⟩
    · simp [updateLocalPatch, hb]
    · intro hp
      rcases hdp : dto.plan with _ | p
      · simp [updateLocalPatch, hb, hdp]
      · have hp0 : (p == "") = false := by
          rw [hdp] at hp
          simpa using hp
        simp [updateLocalPatch, hb, hdp, hp0]
    · intro hp
      rcases hdp : dto.plan_id with _ | p
      · simp [updateLocalPatch, hb, hdp]
      · have hp0 : (p == "") = false := by
          rw [hdp] at hp
          simpa using hp
        simp [updateLocalPatch, hb, hdp, hp0]

/-- Witness for C5 at concrete inputs: an update carrying a foreign
user_id and a status change on a local-only active row leaves the
owning user unchanged (while applying the status), and the patch
builders show the stated frame at concrete rows. -/
theorem c5_update_frame_fields_witness :
    ((update envW "t1" idW userW
        { user_id := some "evil", status := some .expired } true
        (stW .active)).1 =
      .ok (applyLocalPatch (rowW .active)
        (updateLocalPatch (rowW .active)
          { user_id := some "evil", status := some .expired } false "t1")) ∧
      (applyLocalPatch (rowW .active)
        (updateLocalPatch (rowW .active)
          { user_id := some "evil", status := some .expired } false
            "t1")).user_id = (rowW .active).user_id) ∧
    ((updateLocalPatch rowSynced { status := some .expired } false
      "t1").status = none ∧
      (pauseLocalPatch rowSynced {} "t1").status = none ∧
      (cancelLocalPatch rowSynced {} "t1").status = none ∧
      (updateLocalPatch rowSynced { status := some .expired } false
        "t1").current_period_start = none) ∧
    ((updateLocalPatch (rowW .active)
        { status := some .expired, plan := some "gold" } false "t1").status
      = some .expired ∧
      (updateLocalPatch (rowW .active)
        { status := some .expired, plan := some "gold" } false "t1").plan
      = some "gold") := by
  have h := c5_update_frame_fields
  refine ⟨⟨by rfl, ?_⟩, ?_, ?_⟩
  · exact h.1 envW "t1" idW userW
      { user_id := some "evil", status := some .expired } true
      (stW .active) (rowW .active) (by decide) (by decide) (Or.inl rfl)
      (by decide) (fun sid hsid => Option.noConfusion hsid) _ (by rfl)
  · have h2 := h.2.1 rowSynced { status := some .expired } false {} {} "t1"
    exact ⟨(h2.2 (by decide)).1, (h2.2 (by decide)).2.1,
      (h2.2 (by decide)).2.2, h2.1.1⟩
  · have h3 := h.2.2 (rowW .active)
      { status := some .expired, plan := some "gold" } false "t1" (by decide)
    exact ⟨h3.1, h3.2.1 (by decide)⟩

/-! Lemmas about JS-object overlay and metadata merging, used for the
idempotence of reconciliation. -/

lemma find?_eq_head?_filter {α} (p : α → Bool) (l : List α) :
    l.find? p = (l.filter p).head? := by
  induction l with
  | nil => rfl
  | cons a t ih =>
    by_cases h : p a
    · simp [List.find?_cons, List.filter_cons, h]
    · rw [List.find?_cons, List.filter_cons]
      simp only [h, Bool.false_eq_true, if_false, cond_false]
      exact ih

lemma hasKey_of_mem (kv : String × String) (l : SMap) (h : kv ∈ l) :
    hasKey l kv.1 = true := by
  unfold hasKey
  exact List.find?_isSome.mpr ⟨kv, h, by simp⟩

lemma lookupKey_of_mem_nodup (l : SMap) (kv : String × String)
    (hmem : kv ∈ l) (hnd : (l.map Prod.fst).Nodup) :
    lookupKey l kv.1 = some kv.2 := by
  induction l with
  | nil => cases hmem
  | cons a t ih =>
    rcases List.mem_cons.mp hmem with rfl | hmem2
    · simp [lookupKey, List.find?_cons]
    · have hhd : a.1 ∉ t.map Prod.fst := (List.nodup_cons.mp hnd).1
      have hne : (a.1 == kv.1) = false := by
        have : a.1 ≠ kv.1 := by
          intro heq
          exact hhd (heq ▸ List.mem_map_of_mem Prod.fst hmem2)
        simpa using this
      rw [lookupKey, List.find?_cons]
      simp only [hne, Bool.false_eq_true, cond_false]
      exact ih hmem2 (List.nodup_cons.mp hnd).2

lemma hasKey_append (a b : SMap) (k : String) :
    hasKey (a ++ b) k = (hasKey a k || hasKey b k) := by
  unfold hasKey
  rw [List.find?_append]
  exact Option.isSome_or

lemma hasKey_mapval (a : SMap) (g : String × String → String) (k : String) :
    hasKey (a.map (fun kv => (kv.1, g kv))) k = hasKey a k := by
  unfold hasKey
  rw [List.find?_map]
  have hcomp : ((fun kv : String × String => kv.1 == k) ∘
      fun kv => (kv.1, g kv)) = fun kv : String × String => kv.1 == k := by
    funext kv
    rfl
  rw [hcomp]
  cases a.find? fun kv => kv.1 == k <;> rfl

/-- Overlaying the same JS object twice is the same as overlaying it
once (the second spread rewrites each key with the value it already
has). -/
lemma overlay_overlay (a b : SMap) (hb : (b.map Prod.fst).Nodup) :
    overlay (overlay a b) b = overlay a b := by
  have key : overlay (overlay a b) b =
      (overlay a b).map (fun kv => (kv.1, (lookupKey b kv.1).getD kv.2)) ++
        b.filter (fun kv => !(hasKey (overlay a b) kv.1)) := rfl
  have part1 : (overlay a b).map
      (fun kv => (kv.1, (lookupKey b kv.1).getD kv.2)) = overlay a b := by
    have hfix : ∀ kv ∈ overlay a b,
        (fun kv : String × String =>
          (kv.1, (lookupKey b kv.1).getD kv.2)) kv = id kv := by
      intro kv hkv
      rcases List.mem_append.mp hkv with hkva | hkvb
      · rcases List.mem_map.mp hkva with ⟨kv0, hkv0, rfl⟩
        dsimp
        cases hl : lookupKey b kv0.1 <;> simp [hl]
      · have hkvb2 := List.mem_filter.mp hkvb
        dsimp
        rw [lookupKey_of_mem_nodup b kv hkvb2.1 hb]
        rfl
    rw [List.map_congr_left hfix, List.map_id]
  have part2 : b.filter (fun kv => !(hasKey (overlay a b) kv.1)) = [] := by
    rw [List.filter_eq_nil_iff]
    intro kv hkv
    have hk : hasKey (overlay a b) kv.1 = true := by
      unfold overlay
      rw [hasKey_append, hasKey_mapval]
      by_cases hka : hasKey a kv.1 = true
      · simp [hka]
      · have hmemf : kv ∈ b.filter (fun kv => !(hasKey a kv.1)) :=
          List.mem_filter.mpr ⟨hkv, by simp [hka]⟩
        simp [hasKey_of_mem kv _ hmemf]
    simp [hk]
  rw [key, part1, part2, List.append_nil]

/-- Merging the same custom and external metadata into an already
merged object changes nothing. -/
lemma mergeMetadata_idem (e0 : Option Meta) (custom sm : SMap)
    (hnd : (custom.map Prod.fst).Nodup) :
    mergeMetadata (some (mergeMetadata e0 custom (some sm))) custom
      (some sm) = mergeMetadata e0 custom (some sm) := by
  rcases hm0 : e0.getD Meta.empty with ⟨c0, s0, r0⟩
  unfold mergeMetadata
  rw [hm0]
  by_cases hcu : custom.isEmpty
  · simp [hcu]
  · simp only [hcu, Bool.false_eq_true, if_false, Option.getD_some]
    rw [overlay_overlay _ _ hnd]

lemma orElse_absorb2 {α} (A E : Option α) :
    A.orElse (fun _ => A.orElse fun _ => E) = A.orElse fun _ => E := by
  cases A <;> rfl

lemma orElse_absorb3 {α} (A E N : Option α) :
    A.orElse (fun _ =>
      (A.orElse (fun _ => E.orElse fun _ => N)).orElse fun _ => N) =
      A.orElse (fun _ => E.orElse fun _ => N) := by
  cases A
  · cases E
    · cases N <;> rfl
    · rfl
  · rfl

lemma buildPayload_basic (env : Env) (now : String) (sub : StripeSub)
    (custom : SMap) (ex : Option Subscription) (u scid : String) :
    (buildPayload env now sub custom ex u scid).status
        = mapStripeStatus sub ∧
      (buildPayload env now sub custom ex u scid).stripe_subscription_id
        = sub.id ∧
      (buildPayload env now sub custom ex u scid).stripe_customer_id
        = scid ∧
      (buildPayload env now sub custom ex u scid).started_at
        = convertTimestamp sub.start_date ∧
      (buildPayload env now sub custom ex u scid).current_period_start
        = convertTimestamp sub.current_period_start ∧
      (buildPayload env now sub custom ex u scid).current_period_end
        = convertTimestamp sub.current_period_end ∧
      (buildPayload env now sub custom ex u scid).ended_at
        = convertTimestamp sub.ended_at ∧
      (buildPayload env now sub custom ex u scid).cancel_at
        = convertTimestamp sub.cancel_at ∧
      (buildPayload env now sub custom ex u scid).pause_reason
        = sub.pause_collection.map (·.behavior) ∧
      (buildPayload env now sub custom ex u scid).last_event_at = now := by
  unfold buildPayload
  dsimp only
  split <;> exact ⟨rfl, rfl, rfl, rfl, rfl, rfl, rfl, rfl, rfl, rfl⟩

lemma buildPayload_plan (env : Env) (now : String) (sub : StripeSub)
    (custom : SMap) (ex : Option Subscription) (u scid : String) :
    (buildPayload env now sub custom ex u scid).plan =
      (((match (sub.items.head?).bind (·.price) with
        | some p => if p.id == "" then none else env.plansByPrice p.id
        | none => none : Option Plan)).map (·.name)).orElse
        (fun _ => (ex.bind (·.plan)).orElse
          (fun _ => ((sub.items.head?).bind (·.price)).bind (·.nickname))) := by
  unfold buildPayload
  dsimp only
  split <;> rfl

lemma buildPayload_plan_id (env : Env) (now : String) (sub : StripeSub)
    (custom : SMap) (ex : Option Subscription) (u scid : String) :
    (buildPayload env now sub custom ex u scid).plan_id =
      (((match (sub.items.head?).bind (·.price) with
        | some p => if p.id == "" then none else env.plansByPrice p.id
        | none => none : Option Plan)).map (·.id)).orElse
        (fun _ => ex.bind (·.plan_id)) := by
  unfold buildPayload
  dsimp only
  split <;> rfl

lemma buildPayload_url (env : Env) (now : String) (sub : StripeSub)
    (custom : SMap) (ex : Option Subscription) (u scid : String) :
    (buildPayload env now sub custom ex u scid).stripe_invoice_url =
      (extractInvoiceUrl env sub).orElse
        (fun _ => ex.bind (·.stripe_invoice_url)) := by
  unfold buildPayload
  dsimp only
  split <;> rfl

lemma buildPayload_metadata (env : Env) (now : String) (sub : StripeSub)
    (custom : SMap) (ex : Option Subscription) (u scid : String) :
    (buildPayload env now sub custom ex u scid).metadata =
      mergeMetadata (ex.map (·.metadata)) custom (some sub.metadata) := by
  unfold buildPayload
  dsimp only
  split <;> rfl

lemma buildPayload_canceled_at (env : Env) (now : String) (sub : StripeSub)
    (custom : SMap) (ex : Option Subscription) (u scid : String) :
    (buildPayload env now sub custom ex u scid).canceled_at =
      if (sub.status == "canceled") &&
          (convertTimestamp sub.canceled_at == none) &&
          !(convertTimestamp sub.ended_at == none) then
        convertTimestamp sub.ended_at
      else convertTimestamp sub.canceled_at := by
  unfold buildPayload
  dsimp only
  split
  case isTrue h => rfl
  case isFalse h => rfl

/-- Rebuilding the payload at a later time against a row that already
carries the first payload's fallback fields yields the same derived
columns (only the last-sync timestamp moves). -/
lemma buildPayload_stable_derived (env : Env) (t1 t2 : String)
    (sub : StripeSub) (custom : SMap) (e0 : Option Subscription)
    (u scid : String) (r : Subscription)
    (hplan : r.plan = (buildPayload env t1 sub custom e0 u scid).plan)
    (hpid : r.plan_id = (buildPayload env t1 sub custom e0 u scid).plan_id)
    (hurl : r.stripe_invoice_url =
      (buildPayload env t1 sub custom e0 u scid).stripe_invoice_url)
    (hmeta : r.metadata = (buildPayload env t1 sub custom e0 u scid).metadata)
    (hnd : (custom.map Prod.fst).Nodup) :
    derivedOfPayload (buildPayload env t2 sub custom (some r) u scid) =
      derivedOfPayload (buildPayload env t1 sub custom e0 u scid) := by
  rw [buildPayload_plan] at hplan
  rw [buildPayload_plan_id] at hpid
  rw [buildPayload_url] at hurl
  rw [buildPayload_metadata] at hmeta
  have h1 := buildPayload_basic env t1 sub custom e0 u scid
  have h2 := buildPayload_basic env t2 sub custom (some r) u scid
  unfold derivedOfPayload
  simp only [Prod.mk.injEq]
  refine ⟨?_, ?_, ?_, ?_, ?_, ?_, ?_, ?_, ?_, ?_, ?_, ?_, ?_, ?_, ?_⟩
  · rw [buildPayload_user_id, buildPayload_user_id]
  · rw [buildPayload_plan, buildPayload_plan]
    show _ = _
    rw [show ((some r).bind (·.plan)) = r.plan from rfl, hplan]
    exact orElse_absorb3 _ _ _
  · rw [buildPayload_plan_id, buildPayload_plan_id]
    rw [show ((some r).bind (·.plan_id)) = r.plan_id from rfl, hpid]
    exact orElse_absorb2 _ _
  · rw [(h1.2.1 : _), (h2.2.1 : _)]
  · rw [(h1.2.2.1 : _), (h2.2.2.1 : _)]
  · rw [h1.1, h2.1]
  · rw [h1.2.2.2.1, h2.2.2.2.1]
  · rw [h1.2.2.2.2.1, h2.2.2.2.2.1]
  · rw [h1.2.2.2.2.2.1, h2.2.2.2.2.2.1]
  · rw [h1.2.2.2.2.2.2.1, h2.2.2.2.2.2.2.1]
  · rw [h1.2.2.2.2.2.2.2.1, h2.2.2.2.2.2.2.2.1]
  · rw [buildPayload_canceled_at, buildPayload_canceled_at]
  · rw [buildPayload_url, buildPayload_url]
    rw [show ((some r).bind (·.stripe_invoice_url))
      = r.stripe_invoice_url from rfl, hurl]
    exact orElse_absorb2 _ _
  · rw [h1.2.2.2.2.2.2.2.2.1, h2.2.2.2.2.2.2.2.2.1]
  · rw [buildPayload_metadata, buildPayload_metadata]
    rw [show ((some r).map (·.metadata)) = some r.metadata from rfl, hmeta]
    exact mergeMetadata_idem _ _ _ hnd

lemma falsyStr_false_getD (o : Option String) (h : falsyStr o = false) :
    o = some (o.getD "") ∧ o.getD "" ≠ "" := by
  cases o
  · simp at h
  · simp at h ⊢
    exact h

lemma freshId_ne_empty (s : St) : (freshId s == "") = false := by
  have hne : freshId s ≠ "" := by
    intro h
    have hlen := congrArg String.length h
    rw [show freshId s = "row-" ++ toString s.nextId from rfl] at hlen
    rw [String.length_append] at hlen
    have h4 : ("row-" : String).length = 4 := rfl
    have h0 : ("" : String).length = 0 := rfl
    omega
  simpa using hne

lemma find?_none_filter_nil {α} (p : α → Bool) (l : List α)
    (h : l.find? p = none) : l.filter p = [] :=
  List.filter_eq_nil_iff.mpr (List.find?_eq_none.mp h)

lemma filter_eq_single_of_find {α} (p : α → Bool) (l : List α) (e : α)
    (hf : l.find? p = some e) (hlen : (l.filter p).length ≤ 1) :
    l.filter p = [e] := by
  rw [find?_eq_head?_filter] at hf
  rcases hl : l.filter p with _ | ⟨x, t⟩
  · rw [hl] at hf
    simp at hf
  · rw [hl] at hf
    simp only [List.head?_cons, Option.some.injEq] at hf
    rw [hl] at hlen
    simp only [List.length_cons] at hlen
    have ht : t = [] := List.eq_nil_of_length_eq_zero (by omega)
    rw [hf, ht]

/-- Applying a keyed rewrite to the unique row matching `m` rewrites
exactly that row in the filtered view. -/
lemma filter_map_guard_single (l : List Subscription) (e : Subscription)
    (g : Subscription → Subscription) (m : Subscription → Bool)
    (hnd : (l.map (·.id)).Nodup)
    (hfil : l.filter m = [e])
    (hm : m (g e) = true) :
    (l.map fun r => if r.id == e.id then g r else r).filter m = [g e] := by
  induction l with
  | nil => simp at hfil
  | cons a t ih =>
    have hndt : (t.map (·.id)).Nodup := (List.nodup_cons.mp hnd).2
    have hhd : a.id ∉ t.map (·.id) := (List.nodup_cons.mp hnd).1
    by_cases hma : m a = true
    · simp only [List.filter_cons, hma, if_true] at hfil
      have hae : a = e := by
        have := congrArg List.head? hfil
        simpa using this
      have ht0 : t.filter m = [] := by
        have := congrArg List.tail hfil
        simpa [hae] using this
      subst hae
      simp only [List.map_cons, beq_self_eq_true, if_true, List.filter_cons,
        hm, if_true]
      have hmapid : t.map (fun r => if r.id == a.id then g r else r) = t := by
        have hfix : ∀ r ∈ t, (fun r : Subscription =>
            if r.id == a.id then g r else r) r = id r := by
          intro r hr
          have hne : r.id ≠ a.id := by
            intro heq
            exact hhd (heq ▸ List.mem_map_of_mem (·.id) hr)
          simp [hne]
        rw [List.map_congr_left hfix, List.map_id]
      rw [hmapid, ht0]
    · have hma2 : m a = false := by
        cases hx : m a
        · rfl
        · exact absurd hx hma
      simp only [List.filter_cons, hma2, Bool.false_eq_true, if_false]
        at hfil
      have het : e ∈ t := by
        have : e ∈ t.filter m := by
          rw [hfil]
          exact List.mem_singleton.mpr rfl
        exact List.mem_of_mem_filter this
      have haid : a.id ≠ e.id := by
        intro heq
        exact hhd (heq ▸ List.mem_map_of_mem (·.id) het)
      simp only [List.map_cons, List.filter_cons]
      have hFa : (a.id == e.id) = false := by simpa using haid
      simp only [hFa, Bool.false_eq_true, if_false, hma2]
      exact ih hndt hfil

/-- The explicit form of a reconciliation pass that inserts a fresh
row (no existing row for the external id, customer present, user
resolved). -/
lemma sync_rows_insert (env : Env) (now : String) (sub : StripeSub)
    (custom : SMap) (s : St)
    (hc : falsyStr (stripeCustomerIdOf sub.customer) = false)
    (hex : findByStripeSubscriptionId s.rows sub.id = none)
    (hu : falsyStr (resolveUserId env none
      ((stripeCustomerIdOf sub.customer).getD "") sub.metadata) = false) :
    (syncFromStripe env now sub custom s).rows =
      s.rows ++ [(buildPayload env now sub custom none
        ((resolveUserId env none ((stripeCustomerIdOf sub.customer).getD "")
          sub.metadata).getD "")
        ((stripeCustomerIdOf sub.customer).getD "")).toRow
          ("row-" ++ toString s.nextId) now] := by
  simp only [findByStripeSubscriptionId] at hex
  simp only [syncFromStripe, log, findByStripeSubscriptionId]
  rw [hex]
  simp only [hc, Bool.false_eq_true, if_false, Option.map_none',
    falsyStr_none, if_true, hu]
  rcases hinv : sub.latest_invoice with _ | li
  · rfl
  · cases li
    case ref invId =>
      by_cases hi : invId == "" <;>
        (simp only [hi, Bool.false_eq_true, if_false, if_true]; try rfl)
    case obj h p => rfl

/-- The explicit form of a reconciliation pass that rewrites the
existing row found by external id. -/
lemma sync_rows_update (env : Env) (now : String) (sub : StripeSub)
    (custom : SMap) (s : St) (e : Subscription)
    (hc : falsyStr (stripeCustomerIdOf sub.customer) = false)
    (hex : findByStripeSubscriptionId s.rows sub.id = some e)
    (heid : (e.id == "") = false)
    (hu : falsyStr (resolveUserId env (some e)
      ((stripeCustomerIdOf sub.customer).getD "") sub.metadata) = false) :
    (syncFromStripe env now sub custom s).rows =
      s.rows.map fun r => if r.id == e.id then applyPayload r
        (buildPayload env now sub custom (some e)
          ((resolveUserId env (some e)
            ((stripeCustomerIdOf sub.customer).getD "")
            sub.metadata).getD "")
          ((stripeCustomerIdOf sub.customer).getD "")) else r := by
  simp only [findByStripeSubscriptionId] at hex
  simp only [syncFromStripe, log, findByStripeSubscriptionId]
  rw [hex]
  simp only [hc, Bool.false_eq_true, if_false, Option.map_some', hu, heid]
  cases hue : (e.user_id == "") <;>
  · simp only [falsyStr_some, hue, Bool.false_eq_true, if_false, if_true]
    rcases hinv : sub.latest_invoice with _ | li
    · rfl
    · cases li
      case ref invId =>
        by_cases hi : invId == "" <;>
          (simp only [hi, Bool.false_eq_true, if_false, if_true]; try rfl)
      case obj h p => rfl

lemma derived_applyPayload (r : Subscription) (p : SyncPayload) :
    derivedFields (applyPayload r p) = derivedOfPayload p := rfl

lemma derived_toRow (p : SyncPayload) (i c : String) :
    derivedFields (p.toRow i c) = derivedOfPayload p := rfl

lemma pause_reason_applyPayload (r : Subscription) (p : SyncPayload) :
    (applyPayload r p).pause_reason = p.pause_reason := rfl

lemma pause_reason_toRow (p : SyncPayload) (i c : String) :
    (p.toRow i c).pause_reason = p.pause_reason := rfl

lemma stripe_id_toRow (p : SyncPayload) (i c : String) :
    (p.toRow i c).stripe_subscription_id = some p.stripe_subscription_id :=
  rfl

lemma stripe_id_applyPayload (r : Subscription) (p : SyncPayload) :
    (applyPayload r p).stripe_subscription_id
      = some p.stripe_subscription_id := rfl

/-- C9: every reconciliation pass that writes a row (existing row found
or fresh insert) sets that row's pause_reason to the snapshot's
pause-collection behavior when present, and to null otherwise —
regardless of the pause_reason previously stored on the row. -/
theorem c9_sync_overwrites_pause_reason
    (env : Env) (now : String) (sub : StripeSub) (custom : SMap) (s : St)
    (hc : falsyStr (stripeCustomerIdOf sub.customer) = false)
    (hu : falsyStr (resolveUserId env
      (findByStripeSubscriptionId s.rows sub.id)
      ((stripeCustomerIdOf sub.customer).getD "") sub.metadata) = false)
    (hnd : (s.rows.map (·.id)).Nodup)
    (hids0 : "" ∉ s.rows.map (·.id))
    (huniq : (rowsFor sub.id s.rows).length ≤ 1) :
    (rowsFor sub.id (syncFromStripe env now sub custom s).rows).map
      (·.pause_reason) = [sub.pause_collection.map (·.behavior)] := by
  rcases hex : findByStripeSubscriptionId s.rows sub.id with _ | e
  · rw [hex] at hu
    rw [rowsFor, sync_rows_insert env now sub custom s hc hex hu]
    have hexf : s.rows.find?
        (fun r => r.stripe_subscription_id == some sub.id) = none := hex
    rw [List.filter_append, find?_none_filter_nil _ _ hexf]
    have hb := buildPayload_basic env now sub custom none
      ((resolveUserId env none ((stripeCustomerIdOf sub.customer).getD "")
        sub.metadata).getD "")
      ((stripeCustomerIdOf sub.customer).getD "")
    have hm : ((buildPayload env now sub custom none
        ((resolveUserId env none ((stripeCustomerIdOf sub.customer).getD "")
          sub.metadata).getD "")
        ((stripeCustomerIdOf sub.customer).getD "")).toRow
          ("row-" ++ toString s.nextId) now).stripe_subscription_id
        = some sub.id := by
      rw [stripe_id_toRow, hb.2.1]
    simp only [List.nil_append, List.filter_cons, hm, beq_self_eq_true,
      if_true, List.filter_nil, List.map_cons, List.map_nil,
      pause_reason_toRow]
    rw [hb.2.2.2.2.2.2.2.2.1]
  · rw [hex] at hu
    have hef : s.rows.find?
        (fun r => r.stripe_subscription_id == some sub.id) = some e := hex
    have hmem : e ∈ s.rows := List.mem_of_find?_eq_some hef
    have heid : (e.id == "") = false := by
      have : e.id ≠ "" := by
        intro h0
        exact hids0 (h0 ▸ List.mem_map_of_mem (·.id) hmem)
      simpa using this
    rw [rowsFor, sync_rows_update env now sub custom s e hc hex heid hu]
    have hb := buildPayload_basic env now sub custom (some e)
      ((resolveUserId env (some e) ((stripeCustomerIdOf sub.customer).getD "")
        sub.metadata).getD "")
      ((stripeCustomerIdOf sub.customer).getD "")
    have hfil : s.rows.filter
        (fun r => r.stripe_subscription_id == some sub.id) = [e] :=
      filter_eq_single_of_find _ s.rows e hef huniq
    have hm : ((fun r => applyPayload r
        (buildPayload env now sub custom (some e)
          ((resolveUserId env (some e)
            ((stripeCustomerIdOf sub.customer).getD "") sub.metadata).getD "")
          ((stripeCustomerIdOf sub.customer).getD ""))) e).stripe_subscription_id
        = some sub.id := by
      rw [stripe_id_applyPayload, hb.2.1]
    rw [filter_map_guard_single s.rows e _ _ hnd hfil (by simp [hm])]
    simp only [List.map_cons, List.map_nil, pause_reason_applyPayload]
    rw [hb.2.2.2.2.2.2.2.2.1]

/-- Witness for C9 at concrete inputs: syncing a paused snapshot over a
row holding a free-text pause reason replaces it with the behavior
string, and a snapshot without pause collection resets it to null. -/
theorem c9_sync_overwrites_pause_reason_witness :
    (rowsFor "sub_1" (syncFromStripe envW "t1"
      { stripeSubW with pause_collection := some ⟨"mark_uncollectible"⟩ } []
      { st10 with rows := [{ rowSynced with
          pause_reason := some "user asked" }] }).rows).map
        (·.pause_reason) = [some "mark_uncollectible"] ∧
    (rowsFor "sub_1" (syncFromStripe envW "t1" stripeSubW []
      { st10 with rows := [{ rowSynced with
          pause_reason := some "user asked" }] }).rows).map
        (·.pause_reason) = [none] := by
  constructor
  · exact c9_sync_overwrites_pause_reason envW "t1"
      { stripeSubW with pause_collection := some ⟨"mark_uncollectible"⟩ } []
      { st10 with rows := [{ rowSynced with
          pause_reason := some "user asked" }] }
      (by decide) (by decide) (by decide) (by decide) (by decide)
  · exact c9_sync_overwrites_pause_reason envW "t1" stripeSubW []
      { st10 with rows := [{ rowSynced with
          pause_reason := some "user asked" }] }
      (by decide) (by decide) (by decide) (by decide) (by decide)

lemma map_ids_guard (l : List Subscription) (x : String)
    (g : Subscription → Subscription) (hg : ∀ r, (g r).id = r.id) :
    ((l.map fun r => if r.id == x then g r else r).map (·.id))
      = l.map (·.id) := by
  rw [List.map_map]
  exact List.map_congr_left fun r _ => guard_map_id_pres x g hg r

/-- Second reconciliation pass over a state whose unique row for the
external id is `R`: the filtered view keeps exactly one row, and its
derived columns repeat those of `R` when the rebuilt payload is
derived-stable. -/
lemma sync_second_pass (env : Env) (t2 : String) (sub : StripeSub)
    (custom : SMap) (s1 : St) (R : Subscription)
    (hc : falsyStr (stripeCustomerIdOf sub.customer) = false)
    (hnd1 : (s1.rows.map (·.id)).Nodup)
    (hfil1 : s1.rows.filter
      (fun r => r.stripe_subscription_id == some sub.id) = [R])
    (hRid : (R.id == "") = false)
    (hRuser : R.user_id ≠ "")
    (hstable : derivedOfPayload (buildPayload env t2 sub custom (some R)
      R.user_id ((stripeCustomerIdOf sub.customer).getD ""))
        = derivedFields R) :
    (rowsFor sub.id (syncFromStripe env t2 sub custom s1).rows).map
      derivedFields = [derivedFields R] ∧
    (rowsFor sub.id (syncFromStripe env t2 sub custom s1).rows).length
      = 1 := by
  have hex1 : findByStripeSubscriptionId s1.rows sub.id = some R := by
    unfold findByStripeSubscriptionId
    rw [find?_eq_head?_filter, hfil1]
    rfl
  have hres := resolveUserId_existing env
    ((stripeCustomerIdOf sub.customer).getD "") sub.metadata R hRuser
  have hu1 : falsyStr (resolveUserId env (some R)
      ((stripeCustomerIdOf sub.customer).getD "") sub.metadata) = false := by
    rw [hres]
    simpa using hRuser
  have hsync2 := sync_rows_update env t2 sub custom s1 R hc hex1 hRid hu1
  simp only [hres, Option.getD_some] at hsync2
  have hm : ((fun r => applyPayload r
      (buildPayload env t2 sub custom (some R) R.user_id
        ((stripeCustomerIdOf sub.customer).getD ""))) R).stripe_subscription_id
      = some sub.id := by
    rw [stripe_id_applyPayload,
      (buildPayload_basic env t2 sub custom (some R) R.user_id
        ((stripeCustomerIdOf sub.customer).getD "")).2.1]
  have hfil2 := filter_map_guard_single s1.rows R
    (fun r => applyPayload r
      (buildPayload env t2 sub custom (some R) R.user_id
        ((stripeCustomerIdOf sub.customer).getD "")))
    (fun r => r.stripe_subscription_id == some sub.id) hnd1 hfil1
    (by simp [hm])
  constructor
  · rw [rowsFor, hsync2, hfil2]
    simp only [List.map_cons, List.map_nil, derived_applyPayload]
    rw [hstable]
  · rw [rowsFor, hsync2, hfil2]
    rfl

/-- First reconciliation pass, insert case: packaged facts about the
inserted row. -/
lemma sync_first_pass_insert (env : Env) (t1 : String) (sub : StripeSub)
    (custom : SMap) (s : St)
    (hc : falsyStr (stripeCustomerIdOf sub.customer) = false)
    (hex : findByStripeSubscriptionId s.rows sub.id = none)
    (hu : falsyStr (resolveUserId env none
      ((stripeCustomerIdOf sub.customer).getD "") sub.metadata) = false)
    (hnd : (s.rows.map (·.id)).Nodup)
    (hfresh : ("row-" ++ toString s.nextId) ∉ s.rows.map (·.id))
    (hcustom : (custom.map Prod.fst).Nodup) :
    ∃ R : Subscription,
      (syncFromStripe env t1 sub custom s).rows.filter
        (fun r => r.stripe_subscription_id == some sub.id) = [R] ∧
      (((syncFromStripe env t1 sub custom s).rows.map (·.id)).Nodup) ∧
      (R.id == "") = false ∧ R.user_id ≠ "" ∧
      ∀ t2, derivedOfPayload (buildPayload env t2 sub custom (some R)
        R.user_id ((stripeCustomerIdOf sub.customer).getD ""))
          = derivedFields R := by
  have hg := falsyStr_false_getD _ hu
  have hsync1 := sync_rows_insert env t1 sub custom s hc hex hu
  have hexf : s.rows.find?
      (fun r => r.stripe_subscription_id == some sub.id) = none := hex
  refine ⟨(buildPayload env t1 sub custom none
    ((resolveUserId env none ((stripeCustomerIdOf sub.customer).getD "")
      sub.metadata).getD "")
    ((stripeCustomerIdOf sub.customer).getD "")).toRow
      ("row-" ++ toString s.nextId) t1, ?_, ?_, ?_, ?_, ?_⟩
  · rw [hsync1, List.filter_append, find?_none_filter_nil _ _ hexf]
    have hmR : ((buildPayload env t1 sub custom none
        ((resolveUserId env none ((stripeCustomerIdOf sub.customer).getD "")
          sub.metadata).getD "")
        ((stripeCustomerIdOf sub.customer).getD "")).toRow
          ("row-" ++ toString s.nextId) t1).stripe_subscription_id
        = some sub.id := by
      rw [stripe_id_toRow,
        (buildPayload_basic env t1 sub custom none
          ((resolveUserId env none ((stripeCustomerIdOf sub.customer).getD "")
            sub.metadata).getD "")
          ((stripeCustomerIdOf sub.customer).getD "")).2.1]
    simp [hmR]
  · rw [hsync1, List.map_append, List.nodup_append]
    refine ⟨hnd, List.nodup_singleton _, ?_⟩
    intro a ha hmem
    simp only [List.map_cons, List.map_nil, List.mem_singleton] at hmem
    have hmem2 : a = "row-" ++ toString s.nextId := hmem
    exact hfresh (hmem2 ▸ ha)
  · exact freshId_ne_empty s
  · have h1 : ((buildPayload env t1 sub custom none
        ((resolveUserId env none ((stripeCustomerIdOf sub.customer).getD "")
          sub.metadata).getD "")
        ((stripeCustomerIdOf sub.customer).getD "")).toRow
          ("row-" ++ toString s.nextId) t1).user_id =
        ((resolveUserId env none ((stripeCustomerIdOf sub.customer).getD "")
          sub.metadata).getD "") :=
      buildPayload_user_id env t1 sub custom none _ _
    rw [h1]
    exact hg.2
  · intro t2
    have h1 : ((buildPayload env t1 sub custom none
        ((resolveUserId env none ((stripeCustomerIdOf sub.customer).getD "")
          sub.metadata).getD "")
        ((stripeCustomerIdOf sub.customer).getD "")).toRow
          ("row-" ++ toString s.nextId) t1).user_id =
        ((resolveUserId env none ((stripeCustomerIdOf sub.customer).getD "")
          sub.metadata).getD "") :=
      buildPayload_user_id env t1 sub custom none _ _
    rw [h1, derived_toRow]
    exact buildPayload_stable_derived env t1 t2 sub custom none _ _ _
      rfl rfl rfl rfl hcustom

/-- First reconciliation pass, update case: packaged facts about the
rewritten row. -/
lemma sync_first_pass_update (env : Env) (t1 : String) (sub : StripeSub)
    (custom : SMap) (s : St) (e : Subscription)
    (hc : falsyStr (stripeCustomerIdOf sub.customer) = false)
    (hex : findByStripeSubscriptionId s.rows sub.id = some e)
    (heid : (e.id == "") = false)
    (hu : falsyStr (resolveUserId env (some e)
      ((stripeCustomerIdOf sub.customer).getD "") sub.metadata) = false)
    (hnd : (s.rows.map (·.id)).Nodup)
    (huniq : (s.rows.filter
      (fun r => r.stripe_subscription_id == some sub.id)).length ≤ 1)
    (hcustom : (custom.map Prod.fst).Nodup) :
    ∃ R : Subscription,
      (syncFromStripe env t1 sub custom s).rows.filter
        (fun r => r.stripe_subscription_id == some sub.id) = [R] ∧
      (((syncFromStripe env t1 sub custom s).rows.map (·.id)).Nodup) ∧
      (R.id == "") = false ∧ R.user_id ≠ "" ∧
      ∀ t2, derivedOfPayload (buildPayload env t2 sub custom (some R)
        R.user_id ((stripeCustomerIdOf sub.customer).getD ""))
          = derivedFields R := by
  have hg := falsyStr_false_getD _ hu
  have hsync1 := sync_rows_update env t1 sub custom s e hc hex heid hu
  have hexf : s.rows.find?
      (fun r => r.stripe_subscription_id == some sub.id) = some e := hex
  have hfil : s.rows.filter
      (fun r => r.stripe_subscription_id == some sub.id) = [e] :=
    filter_eq_single_of_find _ s.rows e hexf huniq
  have hmR : (applyPayload e (buildPayload env t1 sub custom (some e)
      ((resolveUserId env (some e) ((stripeCustomerIdOf sub.customer).getD "")
        sub.metadata).getD "")
      ((stripeCustomerIdOf sub.customer).getD ""))).stripe_subscription_id
      = some sub.id := by
    rw [stripe_id_applyPayload,
      (buildPayload_basic env t1 sub custom (some e)
        ((resolveUserId env (some e)
          ((stripeCustomerIdOf sub.customer).getD "") sub.metadata).getD "")
        ((stripeCustomerIdOf sub.customer).getD "")).2.1]
  refine ⟨applyPayload e (buildPayload env t1 sub custom (some e)
    ((resolveUserId env (some e) ((stripeCustomerIdOf sub.customer).getD "")
      sub.metadata).getD "")
    ((stripeCustomerIdOf sub.customer).getD "")), ?_, ?_, ?_, ?_, ?_⟩
  · rw [hsync1]
    exact filter_map_guard_single s.rows e _ _ hnd hfil (by simp [hmR])
  · rw [hsync1]
    rw [map_ids_guard s.rows e.id _ (fun r => applyPayload_id r _)]
    exact hnd
  · rw [show (applyPayload e (buildPayload env t1 sub custom (some e)
      ((resolveUserId env (some e) ((stripeCustomerIdOf sub.customer).getD "")
        sub.metadata).getD "")
      ((stripeCustomerIdOf sub.customer).getD ""))).id = e.id from rfl]
    exact heid
  · have h1 : (applyPayload e (buildPayload env t1 sub custom (some e)
        ((resolveUserId env (some e)
          ((stripeCustomerIdOf sub.customer).getD "") sub.metadata).getD "")
        ((stripeCustomerIdOf sub.customer).getD ""))).user_id =
        ((resolveUserId env (some e)
          ((stripeCustomerIdOf sub.customer).getD "")
          sub.metadata).getD "") :=
      buildPayload_user_id env t1 sub custom (some e) _ _
    rw [h1]
    exact hg.2
  · intro t2
    have h1 : (applyPayload e (buildPayload env t1 sub custom (some e)
        ((resolveUserId env (some e)
          ((stripeCustomerIdOf sub.customer).getD "") sub.metadata).getD "")
        ((stripeCustomerIdOf sub.customer).getD ""))).user_id =
        ((resolveUserId env (some e)
          ((stripeCustomerIdOf sub.customer).getD "")
          sub.metadata).getD "") :=
      buildPayload_user_id env t1 sub custom (some e) _ _
    rw [h1, derived_applyPayload]
    exact buildPayload_stable_derived env t1 t2 sub custom (some e) _ _ _
      rfl rfl rfl rfl hcustom

/-- C1 counterexample: for a snapshot that reconciliation cannot
attribute to any user (customer present but no existing row, no
customer mapping, no metadata hint), applying syncFromStripe twice to
the empty store leaves zero rows for that external id, not exactly
one as the claim states for every snapshot. -/
theorem c1_counterexample_unattributable :
    (rowsFor stripeSubW.id
      (syncFromStripe envW "t2" stripeSubW []
        (syncFromStripe envW "t1" stripeSubW [] st0)).rows).length = 0 ∧
    ¬ ((rowsFor stripeSubW.id
      (syncFromStripe envW "t2" stripeSubW []
        (syncFromStripe envW "t1" stripeSubW [] st0)).rows).length = 1) := by
  constructor <;> decide

/-- C1 amended: for every snapshot whose customer id is present and
whose owning user resolves, starting from a well-formed store (no
duplicate or empty row ids, a fresh generated id, at most one row for
the external id, duplicate-free custom metadata keys), applying
syncFromStripe twice in succession leaves exactly one local row for
that external subscription id, and the derived columns (everything
except the last-sync timestamp) are identical after the second
application to their values after the first. -/
theorem c1_sync_idempotent_amended
    (env : Env) (t1 t2 : String) (sub : StripeSub) (custom : SMap) (s : St)
    (hc : falsyStr (stripeCustomerIdOf sub.customer) = false)
    (hu : falsyStr (resolveUserId env
      (findByStripeSubscriptionId s.rows sub.id)
      ((stripeCustomerIdOf sub.customer).getD "") sub.metadata) = false)
    (hnd : (s.rows.map (·.id)).Nodup)
    (hids0 : "" ∉ s.rows.map (·.id))
    (hfresh : ("row-" ++ toString s.nextId) ∉ s.rows.map (·.id))
    (huniq : (rowsFor sub.id s.rows).length ≤ 1)
    (hcustom : (custom.map Prod.fst).Nodup) :
    (rowsFor sub.id (syncFromStripe env t2 sub custom
      (syncFromStripe env t1 sub custom s)).rows).length = 1 ∧
    (rowsFor sub.id (syncFromStripe env t2 sub custom
      (syncFromStripe env t1 sub custom s)).rows).map derivedFields =
      (rowsFor sub.id (syncFromStripe env t1 sub custom s).rows).map
        derivedFields := by
  have hfirst : ∃ R : Subscription,
      (syncFromStripe env t1 sub custom s).rows.filter
        (fun r => r.stripe_subscription_id == some sub.id) = [R] ∧
      (((syncFromStripe env t1 sub custom s).rows.map (·.id)).Nodup) ∧
      (R.id == "") = false ∧ R.user_id ≠ "" ∧
      ∀ u, derivedOfPayload (buildPayload env u sub custom (some R)
        R.user_id ((stripeCustomerIdOf sub.customer).getD ""))
          = derivedFields R := by
    rcases hex : findByStripeSubscriptionId s.rows sub.id with _ | e
    · rw [hex] at hu
      exact sync_first_pass_insert env t1 sub custom s hc hex hu hnd
        hfresh hcustom
    · rw [hex] at hu
      have hexf : s.rows.find?
          (fun r => r.stripe_subscription_id == some sub.id) = some e := hex
      have hmem : e ∈ s.rows := List.mem_of_find?_eq_some hexf
      have heid : (e.id == "") = false := by
        have hne : e.id ≠ "" := by
          intro h0
          exact hids0 (h0 ▸ List.mem_map_of_mem (·.id) hmem)
        simpa using hne
      exact sync_first_pass_update env t1 sub custom s e hc hex heid hu
        hnd huniq hcustom
  rcases hfirst with ⟨R, hfil1, hnd1, hRid, hRuser, hstab⟩
  obtain ⟨hmap2, hlen2⟩ := sync_second_pass env t2 sub custom
    (syncFromStripe env t1 sub custom s) R hc hnd1 hfil1 hRid hRuser
    (hstab t2)
  refine ⟨hlen2, ?_⟩
  rw [hmap2, rowsFor, hfil1]
  rfl

/-- Witness for the amended C1 at concrete inputs: a snapshot whose
customer maps to a user, reconciled twice into the empty store. -/
theorem c1_sync_idempotent_amended_witness :
    (rowsFor stripeSubW.id (syncFromStripe envC1 "t2" stripeSubW []
      (syncFromStripe envC1 "t1" stripeSubW [] st0)).rows).length = 1 ∧
    (rowsFor stripeSubW.id (syncFromStripe envC1 "t2" stripeSubW []
      (syncFromStripe envC1 "t1" stripeSubW [] st0)).rows).map
        derivedFields =
      (rowsFor stripeSubW.id
        (syncFromStripe envC1 "t1" stripeSubW [] st0).rows).map
          derivedFields :=
  c1_sync_idempotent_amended envC1 "t1" "t2" stripeSubW [] st0
    (by decide) (by decide) (by decide) (by decide) (by decide)
    (by decide) (by decide)

end RMeillor
